import Mathlib

/-!
# ccloudvm: the instance lifecycle backend (`ccvm/ccvm.go`)

A shallow embedding of `ccvmBackend` (createInstance, start, status,
deleteInstance) and of its helpers checkMemAvailable, prepareCreate and
downloadProgress.

Conventions of the embedding

* Go `int` values are `Int`; the code only compares them and prints them.
* A Go `error` is its message (`Err := String`); the `nil` error is `none`.
* Functions of the repository that live outside `ccvm.go` (prepareEnv,
  createWorkload, bootVM, ...) and the host (file system, memory query) are
  parameters, gathered in the record `Host`.  Their results are arbitrary.
* Effects are explicit: a `World` holds the set of existing directories and
  the ordered trace of the calls made and of the messages sent.
* `defer` is run by hand, last registered first, when the function body
  it belongs to has returned.
-/

namespace Ccvm

/-! ## Errors and formatting -/

/-- A Go error, identified with the text of its `Error()` method. -/
abbrev Err := String

/-- An argument of a formatting call. -/
inductive Arg where
  | int (i : Int)
  | str (s : String)
  deriving DecidableEq, Repr

namespace fmt

/-- The verbs of `fmt.Sprintf` that `ccvm.go` uses, over the characters of the
format: `%d` prints an integer in decimal, `%s` a string and `%v` an error
(its message); every other character is copied. -/
def SprintfChars : List Char → List Arg → List Char
  | '%' :: 'd' :: rest, Arg.int i :: args => (toString i).toList ++ SprintfChars rest args
  | '%' :: 's' :: rest, Arg.str s :: args => s.toList ++ SprintfChars rest args
  | '%' :: 'v' :: rest, Arg.str s :: args => s.toList ++ SprintfChars rest args
  | c :: rest, args => c :: SprintfChars rest args
  | [], _ => []

/-- Go: `fmt.Sprintf(format, args...)`. -/
def Sprintf (format : String) (args : List Arg) : String :=
  String.mk (SprintfChars format.toList args)

/-- Go: `fmt.Errorf(format, args...)`: an error with the formatted message. -/
def Errorf (format : String) (args : List Arg) : Err :=
  Sprintf format args

end fmt

namespace errors

/-- Go: `errors.Wrap(err, message)` of github.com/pkg/errors, for a non-nil
`err`: an error whose message is `message: err`. -/
def Wrap (err : Err) (message : String) : Err :=
  message ++ ": " ++ err

end errors

/-! ## Data model (the fields `ccvm.go` reads and writes) -/

/-- Go: `types.VMSpec`. -/
structure VMSpec where
  MemMiB : Int
  CPUs : Int
  DiskGiB : Int
  Mounts : List String
  deriving DecidableEq, Repr

/-- Go: `types.CreateArgs`. -/
structure CreateArgs where
  Name : String
  WorkloadName : String
  Debug : Bool
  Update : Bool
  CustomSpec : VMSpec
  HTTPProxy : String
  HTTPSProxy : String
  NoProxy : String
  GoPath : String
  deriving DecidableEq, Repr

/-- Go: `types.CreateResult`, a line sent on the result channel. -/
structure CreateResult where
  Line : String
  deriving DecidableEq, Repr

/-- Go: `types.SSHDetails`. -/
structure SSHDetails where
  KeyPath : String
  Port : Int
  deriving DecidableEq, Repr

/-- Go: `types.InstanceDetails`. -/
structure InstanceDetails where
  Name : String
  SSH : SSHDetails
  Workload : String
  VMSpec : VMSpec
  deriving DecidableEq, Repr

/-- Go: `workspace`. -/
structure workspace where
  HTTPProxy : String
  HTTPSProxy : String
  NoProxy : String
  GoPath : String
  Mounts : List String
  Hostname : String
  PackageUpgrade : String
  HTTPServerPort : Int
  instanceDir : String
  keyPath : String
  deriving DecidableEq, Repr

/-- Go: `workloadSpec`, the field `spec` of a workload. -/
structure workloadSpec where
  BaseImageURL : String
  BaseImageName : String
  WorkloadName : String
  NeedsNestedVM : Bool
  VM : VMSpec
  deriving DecidableEq, Repr

/-- Go: `workload`. -/
structure workload where
  spec : workloadSpec
  mergedUserData : String
  deriving DecidableEq, Repr

/-- Go: `progress`, a report of the download. -/
structure progress where
  downloadedMB : Int
  totalMB : Int
  deriving DecidableEq, Repr

/-- A `*http.Transport`, as built by getHTTPTransport. -/
abbrev Transport := Nat

/-- A non-nil `net.Listener`. -/
abbrev Listener := Nat

/-! ## The host and the collaborators -/

/-- What `ccvm.go` calls but does not define: the host queries, the file
system calls that can fail, and the functions of the other files of the
package.  A result `none` is the nil error.  A collaborator that receives the
workspace pointer is taken not to write the fields of `workspace` listed
above; generateCloudConfig returns the new value of `mergedUserData`;
MergeCustom returns the merged receiver; downloadFile returns the progress
reports it hands to its callback, in order, and then its result;
createLocalListener returns a non-nil listener when it succeeds. -/
structure Host where
  GetMemoryInfo : Int × Int
  hostSupportsNestedKVM : Bool
  defaultVMSpec : VMSpec
  prepareEnv : String → Except Err workspace
  getHTTPTransport : String → String → String → Transport
  createWorkload : workspace → String → Transport → Except Err workload
  restoreWorkload : workspace → Except Err workload
  MergeCustom : VMSpec → VMSpec → Except Err VMSpec
  SSHPort : VMSpec → Except Err Int
  MkdirAll : String → Option Err
  RemoveAll : String → Option Err
  prepareSSHKeys : workspace → Option Err
  createLocalListener : Except Err (Listener × Int)
  generateCloudConfig : workload → workspace → Except Err String
  save : workload → String → Option Err
  downloadFile : Transport → String → List progress × Except Err String
  buildISOImage : String → workspace → Bool → Option Err
  createRootfs : String → String → Int → Option Err
  bootVM : workspace → String → VMSpec → Option Err
  manageInstallation : Transport → Listener → String → Option Err
  stopVM : String → Option Err
  quitVM : String → Option Err

/-- A call with an effect, as recorded in the trace, with the arguments that
identify what it acts on. -/
inductive Event where
  | Stat (path : String)
  | MkdirAll (path : String)
  | RemoveAll (path : String)
  | checkMemAvailable (vm : VMSpec)
  | prepareSSHKeys
  | createLocalListener
  | Close (listener : Listener)
  | generateCloudConfig
  | save (wkld : workload) (dir : String)
  | downloadFile (url : String)
  | buildISOImage
  | createRootfs (qcowPath : String) (dir : String) (diskGiB : Int)
  | bootVM (name : String) (spec : VMSpec)
  | manageInstallation (listener : Listener) (dir : String)
  | stopVM (dir : String)
  | quitVM (dir : String)
  deriving DecidableEq, Repr

/-- The state the backend acts on: the directories that exist, the values
sent on the result channel, the lines printed, and the trace of calls. -/
structure World where
  dirs : List String
  resultCh : List CreateResult
  stdout : List String
  trace : List Event
  deriving DecidableEq, Repr

/-- A world with the given directories in which nothing has happened yet. -/
def World.init (dirs : List String) : World :=
  { dirs := dirs, resultCh := [], stdout := [], trace := [] }

/-- Record a call at the end of the trace. -/
def World.log (w : World) (e : Event) : World :=
  { w with trace := w.trace ++ [e] }

/-- Go: `resultCh <- r`. -/
def World.send (w : World) (r : CreateResult) : World :=
  { w with resultCh := w.resultCh ++ [r] }

/-- Go: `fmt.Printf` / `fmt.Println`, the text written to standard output. -/
def World.print (w : World) (s : String) : World :=
  { w with stdout := w.stdout ++ [s] }

/-- The directory exists from now on. -/
def World.mkdir (w : World) (path : String) : World :=
  { w with dirs := if path ∈ w.dirs then w.dirs else path :: w.dirs }

/-- The directory does not exist any more. -/
def World.rmdir (w : World) (path : String) : World :=
  { w with dirs := w.dirs.filter (fun d => d ≠ path) }

namespace os

/-- Go: `os.Stat(path)`, of which only the error is used: nil exactly when
the path exists. -/
def Stat (path : String) (w : World) : Option Err × World :=
  let w := w.log (Event.Stat path)
  if path ∈ w.dirs then (none, w) else (some ("stat " ++ path ++ ": no such file or directory"), w)

/-- Go: `os.MkdirAll(path, 0755)`: when it succeeds the directory exists. -/
def MkdirAll (h : Host) (path : String) (w : World) : Option Err × World :=
  let w := w.log (Event.MkdirAll path)
  match h.MkdirAll path with
  | some err => (some err, w)
  | none => (none, w.mkdir path)

/-- Go: `os.RemoveAll(path)`: it removes the path and what it holds, and
"If the path does not exist, RemoveAll returns nil".  Whether the call fails
is the host's answer, for a path that exists (a child that cannot be removed)
as for one that does not (the lookup itself can fail, as with a parent that is
not a directory); when it fails the path is taken to stay as it was. -/
def RemoveAll (h : Host) (path : String) (w : World) : Option Err × World :=
  let w := w.log (Event.RemoveAll path)
  match h.RemoveAll path with
  | some err => (some err, w)
  | none => (none, w.rmdir path)

end os

/-! ## checkMemAvailable and prepareCreate -/

/-- Go: `checkMemAvailable(in)`. -/
def checkMemAvailable (h : Host) (vm : VMSpec) (w : World) : Option Err × World :=
  let w := w.log (Event.checkMemAvailable vm)
  let available := h.GetMemoryInfo.2
  if available = -1 then
    (some (fmt.Errorf "Unable to compute memory statistics of host device" []), w)
  else if vm.MemMiB > available then
    (some (fmt.Errorf "Host device has only %d MiB of RAM available" [Arg.int available]), w)
  else
    (none, w)

/-- The error of the nested KVM check, in prepareCreate and in start. -/
def nestedKVMError : Err :=
  fmt.Errorf "nested KVM is not enabled.  Please enable and try again" []

/-- Go: `prepareCreate(ctx, args)`. -/
def prepareCreate (h : Host) (args : CreateArgs) (w : World) :
    Except Err (workload × workspace × Transport) × World :=
  match h.prepareEnv args.Name with
  | .error err => (.error err, w)
  | .ok ws =>
    let ws := { ws with HTTPProxy := args.HTTPProxy, HTTPSProxy := args.HTTPSProxy,
                        NoProxy := args.NoProxy, GoPath := args.GoPath }
    let transport := h.getHTTPTransport ws.HTTPProxy ws.HTTPSProxy ws.NoProxy
    match h.createWorkload ws args.WorkloadName transport with
    | .error err => (.error err, w)
    | .ok wkld =>
      match h.MergeCustom wkld.spec.VM args.CustomSpec with
      | .error err => (.error err, w)
      | .ok vm =>
        let wkld := { wkld with spec := { wkld.spec with VM := vm } }
        let ws := { ws with Mounts := vm.Mounts, Hostname := args.Name }
        let ws :=
          if ws.NoProxy ≠ "" then
            { ws with NoProxy := fmt.Sprintf "%s,%s,10.0.2.2" [Arg.str ws.Hostname, Arg.str ws.NoProxy] }
          else if ws.HTTPProxy ≠ "" ∨ ws.HTTPSProxy ≠ "" then
            { ws with NoProxy := fmt.Sprintf "%s,10.0.2.2" [Arg.str ws.Hostname] }
          else ws
        let ws := { ws with PackageUpgrade := "false" }
        let ws := if args.Update then { ws with PackageUpgrade := "true" } else ws
        if wkld.spec.NeedsNestedVM && !h.hostSupportsNestedKVM then
          (.error nestedKVMError, w)
        else
          match checkMemAvailable h wkld.spec.VM w with
          | (some err, w) => (.error err, w)
          | (none, w) => (.ok (wkld, ws, transport), w)

/-! ## downloadProgress -/

/-- Go: `downloadProgress(resultCh, p)`.  The channel is the list of the
values sent on it so far; a send adds one value at its end. -/
def downloadProgress (resultCh : List CreateResult) (p : progress) : List CreateResult :=
  if p.totalMB ≥ 0 then
    resultCh ++ [{ Line := fmt.Sprintf "Downloaded %d MB of %d\n"
                            [Arg.int p.downloadedMB, Arg.int p.totalMB] }]
  else
    resultCh ++ [{ Line := fmt.Sprintf "Downloaded %d MB\n" [Arg.int p.downloadedMB] }]

/-! ## createInstance -/

/-- What a part of the body of createInstance leaves when it returns: the
value returned, and the local variables `err` and `listener` that the
deferred functions read. -/
structure Frame where
  ret : Option Err
  err : Option Err
  listener : Option Listener
  deriving DecidableEq, Repr

/-- Go: createInstance, lines 154-209: the statements that follow the
registration of the deferred listener close. -/
def createInstance.afterListener (h : Host) (args : CreateArgs) (wkld : workload)
    (ws : workspace) (transport : Transport) (listener : Listener) (port : Int)
    (w : World) : Frame × World :=
  let ws := { ws with HTTPServerPort := port }
  let w := w.log Event.generateCloudConfig
  match h.generateCloudConfig wkld ws with
  | .error err =>
    ({ ret := some (errors.Wrap err "Error applying template to user-data"),
       err := some err, listener := some listener }, w)
  | .ok userData =>
    let wkld := { wkld with mergedUserData := userData }
    let w := w.log (Event.save wkld ws.instanceDir)
    match h.save wkld ws.instanceDir with
    | some err =>
      ({ ret := some (errors.Wrap err "Unable to save instance state"),
         err := some err, listener := some listener }, w)
    | none =>
      let w := w.send { Line := fmt.Sprintf "Downloading %s\n" [Arg.str wkld.spec.BaseImageName] }
      let w := w.log (Event.downloadFile wkld.spec.BaseImageURL)
      let w := { w with resultCh :=
        (h.downloadFile transport wkld.spec.BaseImageURL).1.foldl downloadProgress w.resultCh }
      match (h.downloadFile transport wkld.spec.BaseImageURL).2 with
      | .error err => ({ ret := some err, err := some err, listener := some listener }, w)
      | .ok qcowPath =>
        let w := w.log Event.buildISOImage
        match h.buildISOImage wkld.mergedUserData ws args.Debug with
        | some err => ({ ret := some err, err := some err, listener := some listener }, w)
        | none =>
          let spec := wkld.spec.VM
          let w := w.log (Event.createRootfs qcowPath ws.instanceDir spec.DiskGiB)
          match h.createRootfs qcowPath ws.instanceDir spec.DiskGiB with
          | some err => ({ ret := some err, err := some err, listener := some listener }, w)
          | none =>
            let w := w.send { Line := fmt.Sprintf "Booting VM with %d MiB RAM and %d cpus\n"
                                        [Arg.int spec.MemMiB, Arg.int spec.CPUs] }
            let w := w.log (Event.bootVM args.Name spec)
            match h.bootVM ws args.Name spec with
            | some err => ({ ret := some err, err := some err, listener := some listener }, w)
            | none =>
              let w := w.log (Event.manageInstallation listener ws.instanceDir)
              -- Ownership of listener passes to manageInstallation: listener = nil
              match h.manageInstallation transport listener ws.instanceDir with
              | some err => ({ ret := some err, err := some err, listener := none }, w)
              | none =>
                let w := w.send { Line := fmt.Sprintf "VM successfully created!\n" [] }
                ({ ret := none, err := none, listener := none }, w)

/-- Go: createInstance, lines 140-209: the statements that follow the
registration of the deferred directory removal.  The deferred listener close
(lines 149-153) is registered once createLocalListener has succeeded, and runs
when the statements after it have returned. -/
def createInstance.afterMkdir (h : Host) (args : CreateArgs) (wkld : workload)
    (ws : workspace) (transport : Transport) (w : World) : Frame × World :=
  let w := w.log Event.prepareSSHKeys
  match h.prepareSSHKeys ws with
  | some err => ({ ret := some err, err := some err, listener := none }, w)
  | none =>
    let w := w.log Event.createLocalListener
    match h.createLocalListener with
    | .error err => ({ ret := some err, err := some err, listener := none }, w)
    | .ok (listener, port) =>
      match createInstance.afterListener h args wkld ws transport listener port w with
      | (f, w) =>
        -- defer: if listener != nil { _ = listener.Close() }
        match f.listener with
        | some l => (f, w.log (Event.Close l))
        | none => (f, w)

/-- Go: `ccvmBackend.createInstance(ctx, resultCh, downloadCh, args)`. -/
def createInstance (h : Host) (args : CreateArgs) (w : World) : Option Err × World :=
  match prepareCreate h args w with
  | (.error err, w) => (some err, w)
  | (.ok (wkld, ws, transport), w) =>
    match os.Stat ws.instanceDir w with
    | (none, w) => (some (fmt.Errorf "instance already exists" []), w)
    | (some _, w) =>
      match os.MkdirAll h ws.instanceDir w with
      | (some err, w) => (some (errors.Wrap err "unable to create cache dir"), w)
      | (none, w) =>
        match createInstance.afterMkdir h args wkld ws transport w with
        | (f, w) =>
          -- defer: if err != nil { _ = os.RemoveAll(ws.instanceDir) }
          match f.err with
          | some _ => (f.ret, (os.RemoveAll h ws.instanceDir w).2)
          | none => (f.ret, w)

/-! ## start, stop, quit, status, deleteInstance -/

/-- Go: `ccvmBackend.start(ctx, name, customSpec)`. -/
def start (h : Host) (name : String) (customSpec : VMSpec) (w : World) : Option Err × World :=
  match h.prepareEnv name with
  | .error err => (some err, w)
  | .ok ws =>
    match h.restoreWorkload ws with
    | .error err => (some err, w)
    | .ok wkld =>
      match h.MergeCustom wkld.spec.VM customSpec with
      | .error err => (some err, w)
      | .ok vm =>
        let defaults := h.defaultVMSpec
        let vm := if vm.MemMiB = 0 then { vm with MemMiB := defaults.MemMiB } else vm
        let vm := if vm.CPUs = 0 then { vm with CPUs := defaults.CPUs } else vm
        let wkld := { wkld with spec := { wkld.spec with VM := vm } }
        if wkld.spec.NeedsNestedVM && !h.hostSupportsNestedKVM then
          (some nestedKVMError, w)
        else
          match checkMemAvailable h vm w with
          | (some err, w) => (some err, w)
          | (none, w) =>
            let w := w.log (Event.save wkld ws.instanceDir)
            let w :=
              match h.save wkld ws.instanceDir with
              | some err =>
                w.print (fmt.Sprintf "Warning: Failed to update instance state: %v" [Arg.str err])
              | none => w
            let w := w.print (fmt.Sprintf "Booting VM with %d MiB RAM and %d cpus\n"
                                [Arg.int vm.MemMiB, Arg.int vm.CPUs])
            let w := w.log (Event.bootVM name vm)
            match h.bootVM ws name vm with
            | some err => (some err, w)
            | none => (none, w.print "VM Started\n")

/-- Go: `ccvmBackend.stop(ctx, name)`. -/
def stop (h : Host) (name : String) (w : World) : Option Err × World :=
  match h.prepareEnv name with
  | .error err => (some err, w)
  | .ok ws =>
    let w := w.log (Event.stopVM ws.instanceDir)
    match h.stopVM ws.instanceDir with
    | some err => (some err, w)
    | none => (none, w.print "VM Stopped\n")

/-- Go: `ccvmBackend.quit(ctx, name)`. -/
def quit (h : Host) (name : String) (w : World) : Option Err × World :=
  match h.prepareEnv name with
  | .error err => (some err, w)
  | .ok ws =>
    let w := w.log (Event.quitVM ws.instanceDir)
    match h.quitVM ws.instanceDir with
    | some err => (some err, w)
    | none => (none, w.print "VM Quit\n")

/-- Go: `ccvmBackend.status(ctx, name)`; the pair is the pair Go returns, a
nil pointer being `none`. -/
def status (h : Host) (name : String) : Option InstanceDetails × Option Err :=
  match h.prepareEnv name with
  | .error err => (none, some err)
  | .ok ws =>
    match h.restoreWorkload ws with
    | .error err => (none, some (errors.Wrap err "Unable to load instance state"))
    | .ok wkld =>
      match h.SSHPort wkld.spec.VM with
      | .error _ =>
        (none, some (fmt.Errorf
          "Instance does not have SSH port open.  Unable to determine status" []))
      | .ok sshPort =>
        (some { Name := name,
                SSH := { KeyPath := ws.keyPath, Port := sshPort },
                Workload := wkld.spec.WorkloadName,
                VMSpec := wkld.spec.VM }, none)

/-- Go: `ccvmBackend.deleteInstance(ctx, name)`. -/
def deleteInstance (h : Host) (name : String) (w : World) : Option Err × World :=
  match h.prepareEnv name with
  | .error err => (some err, w)
  | .ok ws =>
    let w := w.log (Event.quitVM ws.instanceDir)
    -- _ = quitVM(ctx, ws.instanceDir)
    match h.quitVM ws.instanceDir with
    | _ =>
      match os.RemoveAll h ws.instanceDir w with
      | (some err, w) => (some (errors.Wrap err "unable to delete instance"), w)
      | (none, w) => (none, w)

/-! ## Worked hosts, for the examples -/

/-- A VM specification used by the examples. -/
def demoVM : VMSpec := { MemMiB := 1024, CPUs := 2, DiskGiB := 60, Mounts := [] }

/-- A workload used by the examples. -/
def demoWorkload (name : String) (nested : Bool) (vm : VMSpec) : workload :=
  { spec := { BaseImageURL := "https://images.test/xenial.img", BaseImageName := "Ubuntu 16.04",
              WorkloadName := name, NeedsNestedVM := nested, VM := vm },
    mergedUserData := "" }

/-- An example host on which every call succeeds: 8192 MiB available, nested
KVM supported, instances kept under `/home/dev/.ccloudvm/instances`, a merge
that lets the non-zero fields of the custom specification win, and a download
that reports progress twice, first without a total. -/
def demoHost : Host where
  GetMemoryInfo := (16384, 8192)
  hostSupportsNestedKVM := true
  defaultVMSpec := demoVM
  prepareEnv := fun name => .ok
    { HTTPProxy := "", HTTPSProxy := "", NoProxy := "", GoPath := "", Mounts := [],
      Hostname := "", PackageUpgrade := "", HTTPServerPort := 8080,
      instanceDir := "/home/dev/.ccloudvm/instances/" ++ name,
      keyPath := "/home/dev/.ccloudvm/id_rsa" }
  getHTTPTransport := fun _ _ _ => 0
  createWorkload := fun _ name _ => .ok (demoWorkload name false demoVM)
  restoreWorkload := fun _ => .ok (demoWorkload "xenial" false demoVM)
  MergeCustom := fun vm custom => .ok
    { MemMiB := if custom.MemMiB = 0 then vm.MemMiB else custom.MemMiB,
      CPUs := if custom.CPUs = 0 then vm.CPUs else custom.CPUs,
      DiskGiB := if custom.DiskGiB = 0 then vm.DiskGiB else custom.DiskGiB,
      Mounts := vm.Mounts ++ custom.Mounts }
  SSHPort := fun _ => .ok 10022
  MkdirAll := fun _ => none
  RemoveAll := fun _ => none
  prepareSSHKeys := fun _ => none
  createLocalListener := .ok (7, 45123)
  generateCloudConfig := fun _ _ => .ok "#cloud-config"
  save := fun _ _ => none
  downloadFile := fun _ _ => ([⟨1, -1⟩, ⟨2, 300⟩], .ok "/home/dev/.ccloudvm/cache/xenial.img")
  buildISOImage := fun _ _ _ => none
  createRootfs := fun _ _ _ => none
  bootVM := fun _ _ _ => none
  manageInstallation := fun _ _ _ => none
  stopVM := fun _ => none
  quitVM := fun _ => none

/-- Creation arguments used by the examples: instance `dev1`, the given
memory request, no proxy settings. -/
def demoArgs (memMiB : Int) : CreateArgs :=
  { Name := "dev1", WorkloadName := "xenial", Debug := false, Update := false,
    CustomSpec := { MemMiB := memMiB, CPUs := 0, DiskGiB := 0, Mounts := [] },
    HTTPProxy := "", HTTPSProxy := "", NoProxy := "", GoPath := "" }

/-- The instance directory of `dev1` on the example host. -/
def demoDir : String := "/home/dev/.ccloudvm/instances/dev1"

/-- The example host on which the removal of a directory fails the way
os.RemoveAll does when the parent of the path is not a directory. -/
def notDirHost : Host :=
  { demoHost with
    quitVM := fun _ => some "no such process"
    RemoveAll := fun p => some ("unlinkat " ++ p ++ ": not a directory") }

/-- The example host with a workload that needs nested KVM, no nested KVM on
the host, and no memory statistics. -/
def nestedHost : Host :=
  { demoHost with
    GetMemoryInfo := (-1, -1)
    hostSupportsNestedKVM := false
    createWorkload := fun _ name _ => .ok (demoWorkload name true demoVM)
    restoreWorkload := fun _ => .ok (demoWorkload "xenial" true demoVM) }


/-! ## Formatting lemmas -/

theorem Sprintf_downloaded_of (a b : Int) :
    fmt.Sprintf "Downloaded %d MB of %d\n" [Arg.int a, Arg.int b]
      = "Downloaded " ++ toString a ++ " MB of " ++ toString b ++ "\n" := by
  apply String.ext
  simp [fmt.Sprintf, fmt.SprintfChars, String.toList]

theorem Sprintf_downloaded (a : Int) :
    fmt.Sprintf "Downloaded %d MB\n" [Arg.int a] = "Downloaded " ++ toString a ++ " MB\n" := by
  apply String.ext
  simp [fmt.Sprintf, fmt.SprintfChars, String.toList]

theorem Sprintf_noProxy3 (a b : String) :
    fmt.Sprintf "%s,%s,10.0.2.2" [Arg.str a, Arg.str b] = a ++ "," ++ b ++ ",10.0.2.2" := by
  apply String.ext
  simp [fmt.Sprintf, fmt.SprintfChars, String.toList]

theorem Sprintf_noProxy2 (a : String) :
    fmt.Sprintf "%s,10.0.2.2" [Arg.str a] = a ++ ",10.0.2.2" := by
  apply String.ext
  simp [fmt.Sprintf, fmt.SprintfChars, String.toList]

theorem nestedKVMError_eq :
    nestedKVMError = "nested KVM is not enabled.  Please enable and try again" := by
  decide

theorem alreadyExists_eq :
    fmt.Errorf "instance already exists" [] = "instance already exists" := by
  decide

theorem memQueryError_eq :
    fmt.Errorf "Unable to compute memory statistics of host device" []
      = "Unable to compute memory statistics of host device" := by
  decide

theorem noSSHPort_eq :
    fmt.Errorf "Instance does not have SSH port open.  Unable to determine status" []
      = "Instance does not have SSH port open.  Unable to determine status" := by
  decide

/-! ## downloadProgress (C9) -/

/-- C9: for every progress record, downloadProgress sends exactly one
CreateResult on the result channel (the channel grows by one value at its
end); its line is "Downloaded <downloadedMB> MB of <totalMB>\n" when the total
is known (`totalMB >= 0`, zero included) and "Downloaded <downloadedMB> MB\n",
which does not depend on the total, when it is unknown (`totalMB < 0`). -/
theorem downloadProgress_line (resultCh : List CreateResult) (p : progress) :
    downloadProgress resultCh p = resultCh ++
      [{ Line := if 0 ≤ p.totalMB then
            "Downloaded " ++ toString p.downloadedMB ++ " MB of " ++ toString p.totalMB ++ "\n"
          else "Downloaded " ++ toString p.downloadedMB ++ " MB\n" }] := by
  unfold downloadProgress
  by_cases hp : 0 ≤ p.totalMB
  · simp only [ge_iff_le, hp, if_true, Sprintf_downloaded_of]
  · simp only [ge_iff_le, hp, if_false, Sprintf_downloaded]

/-! ## prepareCreate: the no-proxy list (C10) -/

/-- C10, as stated, fails: with no proxy settings at all the stored no-proxy
list is empty (it holds neither the hostname nor 10.0.2.2), and with the
caller's list `example.com` the hostname comes first, not after the caller's
entries. -/
theorem prepareCreate_NoProxy_counterexample :
    (prepareCreate demoHost (demoArgs 4096) (World.init [])).1 =
      .ok (demoWorkload "xenial" false { demoVM with MemMiB := 4096 },
           { HTTPProxy := "", HTTPSProxy := "", NoProxy := "", GoPath := "", Mounts := [],
             Hostname := "dev1", PackageUpgrade := "false", HTTPServerPort := 8080,
             instanceDir := demoDir, keyPath := "/home/dev/.ccloudvm/id_rsa" }, 0) ∧
    (prepareCreate demoHost { demoArgs 4096 with NoProxy := "example.com" } (World.init [])).1 =
      .ok (demoWorkload "xenial" false { demoVM with MemMiB := 4096 },
           { HTTPProxy := "", HTTPSProxy := "", NoProxy := "dev1,example.com,10.0.2.2",
             GoPath := "", Mounts := [],
             Hostname := "dev1", PackageUpgrade := "false", HTTPServerPort := 8080,
             instanceDir := demoDir, keyPath := "/home/dev/.ccloudvm/id_rsa" }, 0) ∧
    "dev1,example.com,10.0.2.2" ≠ "example.com,dev1,10.0.2.2" :=
  ⟨rfl, rfl, by decide⟩

/-- C10, amended: in the workspace that prepareCreate returns, the hostname is
the instance name, and the no-proxy list is: the hostname, then the caller's
NoProxy, then 10.0.2.2 when the caller's NoProxy is not empty; the hostname
and 10.0.2.2 when it is empty and an HTTP or HTTPS proxy is set; and empty
when the caller supplies no proxy settings at all. -/
theorem prepareCreate_NoProxy (h : Host) (args : CreateArgs) (w : World)
    (wkld : workload) (ws : workspace) (transport : Transport)
    (hok : (prepareCreate h args w).1 = .ok (wkld, ws, transport)) :
    ws.Hostname = args.Name ∧
    ws.NoProxy =
      if args.NoProxy ≠ "" then args.Name ++ "," ++ args.NoProxy ++ ",10.0.2.2"
      else if args.HTTPProxy ≠ "" ∨ args.HTTPSProxy ≠ "" then args.Name ++ ",10.0.2.2"
      else "" := by
  unfold prepareCreate at hok
  cases hEnv : h.prepareEnv args.Name with
  | error e => simp [hEnv] at hok
  | ok ws0 =>
    simp only [hEnv] at hok
    generalize h.createWorkload _ _ _ = cw at hok
    cases cw with
    | error e => simp at hok
    | ok wkld0 =>
      simp only at hok
      generalize h.MergeCustom _ _ = mc at hok
      cases mc with
      | error e => simp at hok
      | ok vm =>
        simp only at hok
        by_cases hn : (wkld0.spec.NeedsNestedVM && !h.hostSupportsNestedKVM) = true
        · simp [hn] at hok
        · simp only [hn] at hok
          generalize checkMemAvailable h _ _ = cm at hok
          rcases cm with ⟨_ | e, w1⟩
          · simp only [Bool.false_eq_true, if_false, Except.ok.injEq, Prod.mk.injEq] at hok
            obtain ⟨-, hws, -⟩ := hok
            subst hws
            simp only [Sprintf_noProxy3, Sprintf_noProxy2]
            split_ifs <;> simp_all
          · simp at hok

/-- A run on which the amended C10 applies: proxies set, NoProxy empty. -/
theorem prepareCreate_NoProxy_witness :
    ∃ wkld ws transport,
      (prepareCreate demoHost { demoArgs 4096 with HTTPProxy := "http://proxy.test:911" }
        (World.init [])).1 = .ok (wkld, ws, transport) ∧
      ws.Hostname = "dev1" ∧ ws.NoProxy = "dev1,10.0.2.2" :=
  ⟨_, _, _, rfl,
    (prepareCreate_NoProxy demoHost { demoArgs 4096 with HTTPProxy := "http://proxy.test:911" }
      (World.init []) _ _ _ rfl).1, by decide⟩

/-! ## status (C6) -/

/-- C6: when the workspace resolves and the workload is restored, status
returns a nil result and an error if SSHPort() fails, and otherwise returns no
error and details made of the requested name, the key path of the workspace,
the port SSHPort() returned, the name of the restored workload and its VM
specification. -/
theorem status_spec (h : Host) (name : String) (ws : workspace) (wkld : workload)
    (hEnv : h.prepareEnv name = .ok ws) (hWk : h.restoreWorkload ws = .ok wkld) :
    (∀ e, h.SSHPort wkld.spec.VM = .error e →
      status h name = (none, some
        "Instance does not have SSH port open.  Unable to determine status")) ∧
    (∀ port, h.SSHPort wkld.spec.VM = .ok port →
      status h name =
        (some { Name := name, SSH := { KeyPath := ws.keyPath, Port := port },
                Workload := wkld.spec.WorkloadName, VMSpec := wkld.spec.VM }, none)) := by
  constructor
  · intro e he
    simp [status, hEnv, hWk, he, noSSHPort_eq]
  · intro port hp
    simp [status, hEnv, hWk, hp]

/-- A run of status on an instance without an SSH port, and one with it. -/
theorem status_spec_witness :
    status { demoHost with SSHPort := fun _ => .error "No SSH port configured" } "dev1" =
      (none, some "Instance does not have SSH port open.  Unable to determine status") ∧
    status demoHost "dev1" =
      (some { Name := "dev1", SSH := { KeyPath := "/home/dev/.ccloudvm/id_rsa", Port := 10022 },
              Workload := "xenial", VMSpec := demoVM }, none) :=
  ⟨(status_spec { demoHost with SSHPort := fun _ => .error "No SSH port configured" } "dev1"
      _ _ rfl rfl).1 "No SSH port configured" rfl,
   (status_spec demoHost "dev1" _ _ rfl rfl).2 10022 rfl⟩

/-- The result of status is never a pair of a nil result and a nil error, nor
a result together with an error. -/
theorem status_total (h : Host) (name : String) :
    ((status h name).1 = none ↔ (status h name).2 ≠ none) := by
  unfold status
  repeat' split
  all_goals simp


/-! ## createInstance: what each part does to the world -/

/-- The three ways prepareCreate ends: an error before the memory check, with
the world untouched; an error of the memory check; or success, after a memory
check that passed, with the instance directory that prepareEnv chose. -/
theorem prepareCreate_cases (h : Host) (args : CreateArgs) (w : World) :
    (∃ e, prepareCreate h args w = (.error e, w)) ∨
    (∃ vm e, prepareCreate h args w = (.error e, w.log (Event.checkMemAvailable vm)) ∧
      (h.GetMemoryInfo.2 = -1 ∨ vm.MemMiB > h.GetMemoryInfo.2)) ∨
    (∃ wkld ws transport ws0,
      prepareCreate h args w =
        (.ok (wkld, ws, transport), w.log (Event.checkMemAvailable wkld.spec.VM)) ∧
      h.prepareEnv args.Name = .ok ws0 ∧ ws.instanceDir = ws0.instanceDir ∧
      h.GetMemoryInfo.2 ≠ -1 ∧ wkld.spec.VM.MemMiB ≤ h.GetMemoryInfo.2) := by
  unfold prepareCreate
  cases hEnv : h.prepareEnv args.Name with
  | error e => exact Or.inl ⟨e, rfl⟩
  | ok ws0 =>
    simp only
    generalize h.createWorkload _ _ _ = cw
    cases cw with
    | error e => exact Or.inl ⟨e, rfl⟩
    | ok wkld0 =>
      simp only
      generalize h.MergeCustom _ _ = mc
      cases mc with
      | error e => exact Or.inl ⟨e, rfl⟩
      | ok vm =>
        simp only
        by_cases hn : (wkld0.spec.NeedsNestedVM && !h.hostSupportsNestedKVM) = true
        · simp only [hn, if_true]
          exact Or.inl ⟨_, rfl⟩
        · simp only [hn]
          unfold checkMemAvailable
          by_cases h1 : h.GetMemoryInfo.2 = -1
          · rw [if_pos h1]
            exact Or.inr (Or.inl ⟨vm, _, rfl, Or.inl h1⟩)
          · by_cases h2 : vm.MemMiB > h.GetMemoryInfo.2
            · rw [if_neg h1, if_pos h2]
              exact Or.inr (Or.inl ⟨vm, _, rfl, Or.inr h2⟩)
            · rw [if_neg h1, if_neg h2]
              refine Or.inr (Or.inr ⟨_, _, _, ws0, rfl, rfl, ?_, h1, not_lt.mp h2⟩)
              split_ifs <;> rfl


/-- The specification prepareCreate checks is the merged one: when
prepareCreate succeeds, the workspace resolved, the workload was created and
the custom specification merged into it, and the VM specification of the
workload returned is the result of that merge. -/
theorem prepareCreate_merged (h : Host) (args : CreateArgs) (w w1 : World)
    (wkld : workload) (ws : workspace) (transport : Transport)
    (hp : prepareCreate h args w = (.ok (wkld, ws, transport), w1)) :
    ∃ ws0 wkld0,
      h.prepareEnv args.Name = .ok ws0 ∧
      h.createWorkload
        { ws0 with HTTPProxy := args.HTTPProxy, HTTPSProxy := args.HTTPSProxy,
                   NoProxy := args.NoProxy, GoPath := args.GoPath }
        args.WorkloadName
        (h.getHTTPTransport args.HTTPProxy args.HTTPSProxy args.NoProxy) = .ok wkld0 ∧
      h.MergeCustom wkld0.spec.VM args.CustomSpec = .ok wkld.spec.VM := by
  unfold prepareCreate at hp
  cases hEnv : h.prepareEnv args.Name with
  | error e => simp [hEnv] at hp
  | ok ws0 =>
    simp only [hEnv] at hp
    cases hWk : h.createWorkload
        { ws0 with HTTPProxy := args.HTTPProxy, HTTPSProxy := args.HTTPSProxy,
                   NoProxy := args.NoProxy, GoPath := args.GoPath }
        args.WorkloadName
        (h.getHTTPTransport args.HTTPProxy args.HTTPSProxy args.NoProxy) with
    | error e => simp [hWk] at hp
    | ok wkld0 =>
      simp only [hWk] at hp
      cases hM : h.MergeCustom wkld0.spec.VM args.CustomSpec with
      | error e => simp [hM] at hp
      | ok vm =>
        simp only [hM] at hp
        by_cases hn : (wkld0.spec.NeedsNestedVM && !h.hostSupportsNestedKVM) = true
        · simp [hn] at hp
        · simp only [hn] at hp
          generalize checkMemAvailable h _ _ = cm at hp
          rcases cm with ⟨_ | e, w2⟩
          · simp only [Bool.false_eq_true, if_false, Prod.mk.injEq, Except.ok.injEq] at hp
            obtain ⟨⟨hwk, -, -⟩, -⟩ := hp
            subst hwk
            exact ⟨ws0, wkld0, rfl, hWk, hM⟩
          · simp at hp

/-- When the merged specification asks for more memory than is available, or
the memory query is not available, prepareCreate fails, and the world it
leaves holds at most the memory check. -/
theorem prepareCreate_rejects (h : Host) (args : CreateArgs) (w : World)
    (ws0 : workspace) (wkld0 : workload) (vm : VMSpec)
    (hEnv : h.prepareEnv args.Name = .ok ws0)
    (hWk : h.createWorkload
        { ws0 with HTTPProxy := args.HTTPProxy, HTTPSProxy := args.HTTPSProxy,
                   NoProxy := args.NoProxy, GoPath := args.GoPath }
        args.WorkloadName
        (h.getHTTPTransport args.HTTPProxy args.HTTPSProxy args.NoProxy) = .ok wkld0)
    (hM : h.MergeCustom wkld0.spec.VM args.CustomSpec = .ok vm)
    (hmem : h.GetMemoryInfo.2 = -1 ∨ vm.MemMiB > h.GetMemoryInfo.2) :
    ∃ e, prepareCreate h args w = (.error e, w) ∨
         prepareCreate h args w = (.error e, w.log (Event.checkMemAvailable vm)) := by
  unfold prepareCreate
  simp only [hEnv, hWk, hM]
  by_cases hn : (wkld0.spec.NeedsNestedVM && !h.hostSupportsNestedKVM) = true
  · rw [if_pos hn]
    exact ⟨_, Or.inl rfl⟩
  · rw [if_neg hn]
    unfold checkMemAvailable
    by_cases h1 : h.GetMemoryInfo.2 = -1
    · rw [if_pos h1]
      exact ⟨_, Or.inr rfl⟩
    · rcases hmem with h2 | h2
      · exact absurd h2 h1
      · rw [if_neg h1, if_pos h2]
        exact ⟨_, Or.inr rfl⟩


/-- The trace after a call is recorded. -/
theorem World.log_trace (w : World) (e : Event) : (w.log e).trace = w.trace ++ [e] := rfl

/-- Recording a call leaves the directories alone. -/
theorem World.log_dirs (w : World) (e : Event) : (w.log e).dirs = w.dirs := rfl

/-- The statements after the listener is opened leave the directories alone,
return an error exactly when `err` is set, and add to the trace no file
system call, no memory check, no opening and no closing of a listener. -/
theorem afterListener_quiet (h : Host) (args : CreateArgs) (wkld : workload) (ws : workspace)
    (transport : Transport) (listener : Listener) (port : Int) (w : World) :
    (createInstance.afterListener h args wkld ws transport listener port w).2.dirs = w.dirs ∧
    ((createInstance.afterListener h args wkld ws transport listener port w).1.ret = none ↔
      (createInstance.afterListener h args wkld ws transport listener port w).1.err = none) ∧
    (∀ p, Event.RemoveAll p ∈
        (createInstance.afterListener h args wkld ws transport listener port w).2.trace ↔
      Event.RemoveAll p ∈ w.trace) ∧
    (∀ p, Event.MkdirAll p ∈
        (createInstance.afterListener h args wkld ws transport listener port w).2.trace ↔
      Event.MkdirAll p ∈ w.trace) ∧
    (∀ p, Event.Stat p ∈
        (createInstance.afterListener h args wkld ws transport listener port w).2.trace ↔
      Event.Stat p ∈ w.trace) ∧
    (∀ vm, Event.checkMemAvailable vm ∈
        (createInstance.afterListener h args wkld ws transport listener port w).2.trace ↔
      Event.checkMemAvailable vm ∈ w.trace) ∧
    (Event.createLocalListener ∈
        (createInstance.afterListener h args wkld ws transport listener port w).2.trace ↔
      Event.createLocalListener ∈ w.trace) ∧
    (∀ l, Event.Close l ∈
        (createInstance.afterListener h args wkld ws transport listener port w).2.trace ↔
      Event.Close l ∈ w.trace) := by
  simp only [createInstance.afterListener, World.log, World.send]
  repeat' split
  all_goals simp

/-- The listener variable when the statements after the opening return:
either it still holds the listener and manageInstallation was not called, or
it is nil and manageInstallation was called, with this listener. -/
theorem afterListener_owner (h : Host) (args : CreateArgs) (wkld : workload) (ws : workspace)
    (transport : Transport) (listener : Listener) (port : Int) (w : World) :
    ((createInstance.afterListener h args wkld ws transport listener port w).1.listener
        = some listener ∧
      ∀ e, (∃ l d, e = Event.manageInstallation l d) →
        (e ∈ (createInstance.afterListener h args wkld ws transport listener port w).2.trace ↔
          e ∈ w.trace)) ∨
    ((createInstance.afterListener h args wkld ws transport listener port w).1.listener = none ∧
      ∀ l d, (Event.manageInstallation l d ∈
          (createInstance.afterListener h args wkld ws transport listener port w).2.trace ↔
        Event.manageInstallation l d ∈ w.trace ∨ (l = listener ∧ d = ws.instanceDir))) := by
  simp only [createInstance.afterListener, World.log, World.send]
  repeat' split
  all_goals first
    | (refine Or.inl ⟨rfl, ?_⟩
       rintro e ⟨l, d, rfl⟩
       simp)
    | (refine Or.inr ⟨rfl, ?_⟩
       intro l d
       simp)


/-- The statements after the listener is opened do not close a listener: the
number of recorded closes is unchanged. -/
theorem afterListener_count (h : Host) (args : CreateArgs) (wkld : workload) (ws : workspace)
    (transport : Transport) (listener : Listener) (port : Int) (w : World) (l : Listener) :
    (createInstance.afterListener h args wkld ws transport listener port w).2.trace.count
        (Event.Close l) = w.trace.count (Event.Close l) := by
  simp only [createInstance.afterListener, World.log, World.send]
  repeat' split
  all_goals simp [List.count_append, List.count_cons]

/-- The statements after the directory is made leave the directories alone,
return an error exactly when `err` is set, and add to the trace no file
system call and no memory check. -/
theorem afterMkdir_quiet (h : Host) (args : CreateArgs) (wkld : workload) (ws : workspace)
    (transport : Transport) (w : World) :
    (createInstance.afterMkdir h args wkld ws transport w).2.dirs = w.dirs ∧
    ((createInstance.afterMkdir h args wkld ws transport w).1.ret = none ↔
      (createInstance.afterMkdir h args wkld ws transport w).1.err = none) ∧
    (∀ p, Event.RemoveAll p ∈ (createInstance.afterMkdir h args wkld ws transport w).2.trace ↔
      Event.RemoveAll p ∈ w.trace) ∧
    (∀ p, Event.MkdirAll p ∈ (createInstance.afterMkdir h args wkld ws transport w).2.trace ↔
      Event.MkdirAll p ∈ w.trace) ∧
    (∀ p, Event.Stat p ∈ (createInstance.afterMkdir h args wkld ws transport w).2.trace ↔
      Event.Stat p ∈ w.trace) ∧
    (∀ vm, Event.checkMemAvailable vm ∈
        (createInstance.afterMkdir h args wkld ws transport w).2.trace ↔
      Event.checkMemAvailable vm ∈ w.trace) := by
  unfold createInstance.afterMkdir
  cases h.prepareSSHKeys ws with
  | some err => simp [World.log_trace, World.log_dirs]
  | none =>
    cases h.createLocalListener with
    | error err => simp [World.log_trace, World.log_dirs]
    | ok lp =>
      obtain ⟨l, port⟩ := lp
      obtain ⟨h1, h2, h3, h4, h5, h6, -, -⟩ := afterListener_quiet h args wkld ws transport l port
        ((w.log Event.prepareSSHKeys).log Event.createLocalListener)
      simp only
      cases hl : (createInstance.afterListener h args wkld ws transport l port
        ((w.log Event.prepareSSHKeys).log Event.createLocalListener)).1.listener with
      | none =>
        simp only [h1, h2, h3, h4, h5, h6, World.log_trace, World.log_dirs]
        simp
      | some l2 =>
        simp only [h1, h2, h3, h4, h5, h6, World.log_trace, World.log_dirs, List.mem_append]
        simp

/-- The listener in the statements after the directory is made, from a trace
in which no listener was opened, closed or handed over: if the listener `l`
was opened, then it is closed exactly when manageInstallation was not called,
it is closed at most once, and no other listener is closed or handed over. -/
theorem afterMkdir_listener (h : Host) (args : CreateArgs) (wkld : workload) (ws : workspace)
    (transport : Transport) (w : World)
    (hw1 : Event.createLocalListener ∉ w.trace)
    (hw2 : ∀ l, Event.Close l ∉ w.trace)
    (hw3 : ∀ l d, Event.manageInstallation l d ∉ w.trace)
    (l : Listener) (port : Int)
    (hcall : Event.createLocalListener ∈
      (createInstance.afterMkdir h args wkld ws transport w).2.trace)
    (hopen : h.createLocalListener = .ok (l, port)) :
    (Event.Close l ∈ (createInstance.afterMkdir h args wkld ws transport w).2.trace ↔
      ∀ l2 d, Event.manageInstallation l2 d ∉
        (createInstance.afterMkdir h args wkld ws transport w).2.trace) ∧
    (createInstance.afterMkdir h args wkld ws transport w).2.trace.count (Event.Close l) ≤ 1 ∧
    (∀ l2, Event.Close l2 ∈ (createInstance.afterMkdir h args wkld ws transport w).2.trace →
      l2 = l) ∧
    (∀ l2 d, Event.manageInstallation l2 d ∈
      (createInstance.afterMkdir h args wkld ws transport w).2.trace → l2 = l) := by
  unfold createInstance.afterMkdir at hcall ⊢
  cases hk : h.prepareSSHKeys ws with
  | some err =>
    simp [hk, World.log_trace, hw1] at hcall
  | none =>
    simp only [hk, hopen] at hcall ⊢
    have hq := (afterListener_quiet h args wkld ws transport l port
        ((w.log Event.prepareSSHKeys).log Event.createLocalListener)).2.2.2.2.2.2.2
    have hc := afterListener_count h args wkld ws transport l port
        ((w.log Event.prepareSSHKeys).log Event.createLocalListener) l
    have hc0 : ((w.log Event.prepareSSHKeys).log Event.createLocalListener).trace.count
        (Event.Close l) = 0 := by
      simp [World.log_trace, List.count_append, List.count_cons, List.count_eq_zero, hw2]
    have hclose : ∀ l2, Event.Close l2 ∉ (createInstance.afterListener h args wkld ws transport
        l port ((w.log Event.prepareSSHKeys).log Event.createLocalListener)).2.trace := by
      intro l2
      rw [hq l2]
      simp [World.log_trace, hw2]
    rcases afterListener_owner h args wkld ws transport l port
        ((w.log Event.prepareSSHKeys).log Event.createLocalListener) with ⟨ho, hm⟩ | ⟨ho, hm⟩
    · have hno : ∀ l2 d, Event.manageInstallation l2 d ∉ (createInstance.afterListener h args
          wkld ws transport l port
          ((w.log Event.prepareSSHKeys).log Event.createLocalListener)).2.trace := by
        intro l2 d
        rw [hm _ ⟨l2, d, rfl⟩]
        simp [World.log_trace, hw3]
      simp only [ho]
      refine ⟨?_, ?_, ?_, ?_⟩
      · simp [World.log_trace, hno]
      · rw [World.log_trace, List.count_append, hc, hc0]
        simp
      · intro l2 hl2
        simpa [World.log_trace, hclose] using hl2
      · intro l2 d hl2
        simp [World.log_trace, hno] at hl2
    · simp only [ho]
      refine ⟨?_, ?_, ?_, ?_⟩
      · constructor
        · intro hc1
          exact absurd hc1 (hclose l)
        · intro hall
          exact absurd ((hm l ws.instanceDir).2 (Or.inr ⟨rfl, rfl⟩)) (hall l ws.instanceDir)
      · simp [hc, hc0]
      · intro l2 hl2
        exact absurd hl2 (hclose l2)
      · intro l2 d hl2
        rcases (hm l2 d).1 hl2 with hin | ⟨rfl, -⟩
        · simp [World.log_trace, hw3] at hin
        · rfl


/-- The trace after a directory is made. -/
theorem World.mkdir_trace (w : World) (p : String) : (w.mkdir p).trace = w.trace := rfl

/-- The directories after a directory is made. -/
theorem World.mem_mkdir_dirs (w : World) (p q : String) :
    q ∈ (w.mkdir p).dirs ↔ q = p ∨ q ∈ w.dirs := by
  unfold World.mkdir
  by_cases hp : p ∈ w.dirs
  · simp only [hp, if_true]
    constructor
    · exact Or.inr
    · rintro (rfl | hq)
      · exact hp
      · exact hq
  · simp [hp]

/-- The trace after a directory is removed. -/
theorem World.rmdir_trace (w : World) (p : String) : (w.rmdir p).trace = w.trace := rfl

/-- The directories after a directory is removed. -/
theorem World.mem_rmdir_dirs (w : World) (p q : String) :
    q ∈ (w.rmdir p).dirs ↔ q ≠ p ∧ q ∈ w.dirs := by
  simp [World.rmdir, and_comm]

/-- The trace os.RemoveAll leaves. -/
theorem RemoveAll_trace (h : Host) (p : String) (w : World) :
    (os.RemoveAll h p w).2.trace = w.trace ++ [Event.RemoveAll p] := by
  unfold os.RemoveAll
  cases h.RemoveAll p <;> rfl

/-- The result of os.RemoveAll is the host's answer. -/
theorem RemoveAll_result (h : Host) (p : String) (w : World) :
    (os.RemoveAll h p w).1 = h.RemoveAll p := by
  unfold os.RemoveAll
  cases h.RemoveAll p <;> rfl

/-- The directories os.RemoveAll leaves. -/
theorem RemoveAll_dirs (h : Host) (p : String) (w : World) (q : String) :
    q ∈ (os.RemoveAll h p w).2.dirs ↔
      q ∈ w.dirs ∧ (q = p → h.RemoveAll p ≠ none) := by
  unfold os.RemoveAll
  cases hr : h.RemoveAll p with
  | some e => simp [World.log_dirs]
  | none =>
    simp only [World.mem_rmdir_dirs, World.log_dirs]
    simp [and_comm]

/-- createInstance when prepareCreate fails. -/
theorem createInstance_of_error (h : Host) (args : CreateArgs) (w w1 : World) (e : Err)
    (hp : prepareCreate h args w = (.error e, w1)) :
    createInstance h args w = (some e, w1) := by
  rw [createInstance, hp]

/-- createInstance when the instance directory exists. -/
theorem createInstance_of_exists (h : Host) (args : CreateArgs) (w w1 : World)
    (wkld : workload) (ws : workspace) (tr : Transport)
    (hp : prepareCreate h args w = (.ok (wkld, ws, tr), w1))
    (hex : ws.instanceDir ∈ w1.dirs) :
    createInstance h args w =
      (some "instance already exists", w1.log (Event.Stat ws.instanceDir)) := by
  rw [createInstance, hp]
  simp [os.Stat, World.log_dirs, hex, alreadyExists_eq]

/-- createInstance when os.MkdirAll fails. -/
theorem createInstance_of_mkdir_error (h : Host) (args : CreateArgs) (w w1 : World)
    (wkld : workload) (ws : workspace) (tr : Transport) (e : Err)
    (hp : prepareCreate h args w = (.ok (wkld, ws, tr), w1))
    (hex : ws.instanceDir ∉ w1.dirs) (hmk : h.MkdirAll ws.instanceDir = some e) :
    createInstance h args w =
      (some (errors.Wrap e "unable to create cache dir"),
        (w1.log (Event.Stat ws.instanceDir)).log (Event.MkdirAll ws.instanceDir)) := by
  rw [createInstance, hp]
  simp [os.Stat, os.MkdirAll, World.log_dirs, hex, hmk]

/-- createInstance once the directory is made, when the rest fails: the
deferred removal runs. -/
theorem createInstance_of_failure (h : Host) (args : CreateArgs) (w w1 : World)
    (wkld : workload) (ws : workspace) (tr : Transport) (e : Err)
    (hp : prepareCreate h args w = (.ok (wkld, ws, tr), w1))
    (hex : ws.instanceDir ∉ w1.dirs) (hmk : h.MkdirAll ws.instanceDir = none)
    (herr : (createInstance.afterMkdir h args wkld ws tr
      (((w1.log (Event.Stat ws.instanceDir)).log (Event.MkdirAll ws.instanceDir)).mkdir
        ws.instanceDir)).1.err = some e) :
    createInstance h args w =
      ((createInstance.afterMkdir h args wkld ws tr
        (((w1.log (Event.Stat ws.instanceDir)).log (Event.MkdirAll ws.instanceDir)).mkdir
          ws.instanceDir)).1.ret,
       (os.RemoveAll h ws.instanceDir (createInstance.afterMkdir h args wkld ws tr
        (((w1.log (Event.Stat ws.instanceDir)).log (Event.MkdirAll ws.instanceDir)).mkdir
          ws.instanceDir)).2).2) := by
  rw [createInstance, hp]
  simp only [os.Stat, os.MkdirAll, World.log_dirs, hex, hmk, if_false, herr]

/-- createInstance once the directory is made, when the rest succeeds. -/
theorem createInstance_of_success (h : Host) (args : CreateArgs) (w w1 : World)
    (wkld : workload) (ws : workspace) (tr : Transport)
    (hp : prepareCreate h args w = (.ok (wkld, ws, tr), w1))
    (hex : ws.instanceDir ∉ w1.dirs) (hmk : h.MkdirAll ws.instanceDir = none)
    (herr : (createInstance.afterMkdir h args wkld ws tr
      (((w1.log (Event.Stat ws.instanceDir)).log (Event.MkdirAll ws.instanceDir)).mkdir
        ws.instanceDir)).1.err = none) :
    createInstance h args w =
      ((createInstance.afterMkdir h args wkld ws tr
        (((w1.log (Event.Stat ws.instanceDir)).log (Event.MkdirAll ws.instanceDir)).mkdir
          ws.instanceDir)).1.ret,
       (createInstance.afterMkdir h args wkld ws tr
        (((w1.log (Event.Stat ws.instanceDir)).log (Event.MkdirAll ws.instanceDir)).mkdir
          ws.instanceDir)).2) := by
  rw [createInstance, hp]
  simp only [os.Stat, os.MkdirAll, World.log_dirs, hex, hmk, if_false, herr]


/-! ## deleteInstance (C8) -/

/-- What deleteInstance does once the workspace resolves: it records quitVM,
drops its result, and returns what os.RemoveAll returns, wrapped. -/
theorem deleteInstance_of_env (h : Host) (name : String) (ws : workspace) (w : World)
    (hEnv : h.prepareEnv name = .ok ws) :
    (deleteInstance h name w).1 =
      (h.RemoveAll ws.instanceDir).map (fun e => errors.Wrap e "unable to delete instance") ∧
    (deleteInstance h name w).2 =
      (os.RemoveAll h ws.instanceDir (w.log (Event.quitVM ws.instanceDir))).2 := by
  unfold deleteInstance
  simp only [hEnv]
  unfold os.RemoveAll
  cases h.RemoveAll ws.instanceDir <;> simp

/-- C8, as stated, fails: after a delete of `dev1` that returned nil, with the
directory absent and the VM gone, a second delete on a host whose os.RemoveAll
fails on the absent path (its parent is not a directory any more) returns the
removal error, not nil; and so does a delete of a `dev1` that was absent from
the start. -/
theorem deleteInstance_idempotent_counterexample :
    deleteInstance demoHost "dev1" (World.init [demoDir]) =
      (none, { dirs := [], resultCh := [], stdout := [],
               trace := [Event.quitVM demoDir, Event.RemoveAll demoDir] }) ∧
    deleteInstance notDirHost "dev1" (deleteInstance demoHost "dev1" (World.init [demoDir])).2 =
      (some ("unable to delete instance: " ++
             "unlinkat /home/dev/.ccloudvm/instances/dev1: not a directory"),
       { dirs := [], resultCh := [], stdout := [],
         trace := [Event.quitVM demoDir, Event.RemoveAll demoDir,
                   Event.quitVM demoDir, Event.RemoveAll demoDir] }) ∧
    deleteInstance notDirHost "dev1" (World.init []) =
      (some ("unable to delete instance: " ++
             "unlinkat /home/dev/.ccloudvm/instances/dev1: not a directory"),
       { dirs := [], resultCh := [], stdout := [],
         trace := [Event.quitVM demoDir, Event.RemoveAll demoDir] }) :=
  ⟨rfl, rfl, rfl⟩

/-- C8, amended: when the workspace resolves, deleteInstance does the same
whatever quitVM returns: it calls os.RemoveAll on the instance directory and
returns an error, the wrapped removal error, exactly when that removal fails.
After a delete that returned nil the directory is absent; a second
deleteInstance on the same name returns nil on the same host, and on any host
that resolves the name to the same directory it returns nil exactly when its
own os.RemoveAll returns nil, and leaves the directory absent. -/
theorem deleteInstance_idempotent (h : Host) (name : String) (ws : workspace) (w : World)
    (hEnv : h.prepareEnv name = .ok ws) :
    (∀ q : String → Option Err,
      deleteInstance { h with quitVM := q } name w = deleteInstance h name w) ∧
    Event.RemoveAll ws.instanceDir ∈ (deleteInstance h name w).2.trace ∧
    (deleteInstance h name w).1 =
      (h.RemoveAll ws.instanceDir).map (fun e => errors.Wrap e "unable to delete instance") ∧
    ((deleteInstance h name w).1 ≠ none ↔ h.RemoveAll ws.instanceDir ≠ none) ∧
    ((deleteInstance h name w).1 = none →
      ws.instanceDir ∉ (deleteInstance h name w).2.dirs ∧
      (deleteInstance h name (deleteInstance h name w).2).1 = none ∧
      ∀ (h2 : Host) (ws2 : workspace), h2.prepareEnv name = .ok ws2 →
        ws2.instanceDir = ws.instanceDir →
        ((deleteInstance h2 name (deleteInstance h name w).2).1 = none ↔
          h2.RemoveAll ws.instanceDir = none) ∧
        ws.instanceDir ∉ (deleteInstance h2 name (deleteInstance h name w).2).2.dirs) := by
  obtain ⟨hr, hw⟩ := deleteInstance_of_env h name ws w hEnv
  have hnone : (deleteInstance h name w).1 = none ↔ h.RemoveAll ws.instanceDir = none := by
    rw [hr]
    cases h.RemoveAll ws.instanceDir <;> simp
  refine ⟨?_, ?_, hr, ?_, ?_⟩
  · intro q
    unfold deleteInstance
    simp only [hEnv]
    rfl
  · rw [hw, RemoveAll_trace]
    simp
  · rw [Ne, hnone]
  · intro hnil
    have hok := hnone.1 hnil
    have habs : ws.instanceDir ∉ (deleteInstance h name w).2.dirs := by
      rw [hw, RemoveAll_dirs]
      simp [hok]
    refine ⟨habs, ?_, ?_⟩
    · rw [(deleteInstance_of_env h name ws _ hEnv).1, hok]
      rfl
    · intro h2 ws2 hEnv2 hdir
      obtain ⟨hr2, hw2⟩ := deleteInstance_of_env h2 name ws2 (deleteInstance h name w).2 hEnv2
      rw [hdir] at hr2 hw2
      constructor
      · rw [hr2]
        cases h2.RemoveAll ws.instanceDir <;> simp
      · rw [hw2, RemoveAll_dirs]
        intro hmem
        exact habs (by simpa [World.log_dirs] using hmem.1)

/-- A delete of `dev1` while quitVM fails (the VM is already gone), followed
by a second delete on the same host: both return nil. -/
theorem deleteInstance_idempotent_witness :
    deleteInstance { demoHost with quitVM := fun _ => some "no such process" } "dev1"
        (World.init [demoDir]) =
      (none, { dirs := [], resultCh := [], stdout := [],
               trace := [Event.quitVM demoDir, Event.RemoveAll demoDir] }) ∧
    (deleteInstance { demoHost with quitVM := fun _ => some "no such process" } "dev1"
      (deleteInstance { demoHost with quitVM := fun _ => some "no such process" } "dev1"
        (World.init [demoDir])).2).1 = none :=
  ⟨rfl,
   ((deleteInstance_idempotent { demoHost with quitVM := fun _ => some "no such process" }
      "dev1" _ (World.init [demoDir]) rfl).2.2.2.2 rfl).2.1⟩


/-! ## createInstance: the compensating removal (C1) -/

/-- C1: in every run of createInstance in which os.MkdirAll was called on a
directory and succeeded: if the run returns an error (whichever later step
failed, wrapped or not) then os.RemoveAll was called on that directory, and
the directory does not exist afterwards provided the removal succeeds; and if
the run returns nil then os.RemoveAll was not called, and the directory
exists. -/
theorem createInstance_cleanup (h : Host) (args : CreateArgs) (dirs : List String) (d : String)
    (hcall : Event.MkdirAll d ∈ (createInstance h args (World.init dirs)).2.trace)
    (hmk : h.MkdirAll d = none) :
    ((createInstance h args (World.init dirs)).1 ≠ none →
      Event.RemoveAll d ∈ (createInstance h args (World.init dirs)).2.trace ∧
      (h.RemoveAll d = none → d ∉ (createInstance h args (World.init dirs)).2.dirs)) ∧
    ((createInstance h args (World.init dirs)).1 = none →
      (∀ p, Event.RemoveAll p ∉ (createInstance h args (World.init dirs)).2.trace) ∧
      d ∈ (createInstance h args (World.init dirs)).2.dirs) := by
  rcases prepareCreate_cases h args (World.init dirs) with
    ⟨e, hp⟩ | ⟨vm, e, hp, -⟩ | ⟨wkld, ws, tr, ws0, hp, -, -, -, -⟩
  · rw [createInstance_of_error h args _ _ e hp] at hcall
    simp [World.init] at hcall
  · rw [createInstance_of_error h args _ _ e hp] at hcall
    simp [World.init, World.log_trace] at hcall
  · by_cases hex : ws.instanceDir ∈ ((World.init dirs).log
        (Event.checkMemAvailable wkld.spec.VM)).dirs
    · rw [createInstance_of_exists h args _ _ wkld ws tr hp hex] at hcall
      simp [World.init, World.log_trace] at hcall
    · cases hmk2 : h.MkdirAll ws.instanceDir with
      | some e2 =>
        rw [createInstance_of_mkdir_error h args _ _ wkld ws tr e2 hp hex hmk2] at hcall
        simp [World.init, World.log_trace] at hcall
        rw [hcall, hmk2] at hmk
        simp at hmk
      | none =>
        obtain ⟨hd, hre, hrm, hmkd, -, -⟩ := afterMkdir_quiet h args wkld ws tr
          ((((World.init dirs).log (Event.checkMemAvailable wkld.spec.VM)).log
            (Event.Stat ws.instanceDir)).log (Event.MkdirAll ws.instanceDir)
            |>.mkdir ws.instanceDir)
        cases herr : (createInstance.afterMkdir h args wkld ws tr
          ((((World.init dirs).log (Event.checkMemAvailable wkld.spec.VM)).log
            (Event.Stat ws.instanceDir)).log (Event.MkdirAll ws.instanceDir)
            |>.mkdir ws.instanceDir)).1.err with
        | none =>
          rw [createInstance_of_success h args _ _ wkld ws tr hp hex hmk2 herr] at hcall ⊢
          rw [hmkd] at hcall
          simp [World.mkdir_trace, World.log_trace, World.init] at hcall
          subst hcall
          refine ⟨fun hne => absurd (hre.2 herr) hne, fun _ => ⟨?_, ?_⟩⟩
          · intro p
            rw [hrm]
            simp [World.mkdir_trace, World.log_trace, World.init]
          · rw [hd, World.mem_mkdir_dirs]
            exact Or.inl rfl
        | some e2 =>
          rw [createInstance_of_failure h args _ _ wkld ws tr e2 hp hex hmk2 herr] at hcall ⊢
          rw [RemoveAll_trace, List.mem_append, hmkd] at hcall
          simp [World.mkdir_trace, World.log_trace, World.init] at hcall
          subst hcall
          refine ⟨fun _ => ⟨?_, ?_⟩, fun hnone => ?_⟩
          · simp [RemoveAll_trace]
          · intro hok
            simp [RemoveAll_dirs, hok]
          · simp only at hnone
            rw [hre.1 hnone] at herr
            simp at herr


/-- A run of createInstance that returns nil has made its directory: C1
speaks of every such run. -/
theorem createInstance_nil_made_dir (h : Host) (args : CreateArgs) (dirs : List String)
    (hnil : (createInstance h args (World.init dirs)).1 = none) :
    ∃ d, Event.MkdirAll d ∈ (createInstance h args (World.init dirs)).2.trace ∧
      h.MkdirAll d = none := by
  rcases prepareCreate_cases h args (World.init dirs) with
    ⟨e, hp⟩ | ⟨vm, e, hp, -⟩ | ⟨wkld, ws, tr, ws0, hp, -, -, -, -⟩
  · rw [createInstance_of_error h args _ _ e hp] at hnil
    simp at hnil
  · rw [createInstance_of_error h args _ _ e hp] at hnil
    simp at hnil
  · by_cases hex : ws.instanceDir ∈ ((World.init dirs).log
        (Event.checkMemAvailable wkld.spec.VM)).dirs
    · rw [createInstance_of_exists h args _ _ wkld ws tr hp hex] at hnil
      simp at hnil
    · cases hmk2 : h.MkdirAll ws.instanceDir with
      | some e2 =>
        rw [createInstance_of_mkdir_error h args _ _ wkld ws tr e2 hp hex hmk2] at hnil
        simp at hnil
      | none =>
        obtain ⟨-, hre, -, hmkd, -, -⟩ := afterMkdir_quiet h args wkld ws tr
          ((((World.init dirs).log (Event.checkMemAvailable wkld.spec.VM)).log
            (Event.Stat ws.instanceDir)).log (Event.MkdirAll ws.instanceDir)
            |>.mkdir ws.instanceDir)
        cases herr : (createInstance.afterMkdir h args wkld ws tr
          ((((World.init dirs).log (Event.checkMemAvailable wkld.spec.VM)).log
            (Event.Stat ws.instanceDir)).log (Event.MkdirAll ws.instanceDir)
            |>.mkdir ws.instanceDir)).1.err with
        | none =>
          rw [createInstance_of_success h args _ _ wkld ws tr hp hex hmk2 herr]
          refine ⟨ws.instanceDir, ?_, hmk2⟩
          rw [hmkd]
          simp [World.mkdir_trace, World.log_trace]
        | some e2 =>
          rw [createInstance_of_failure h args _ _ wkld ws tr e2 hp hex hmk2 herr] at hnil
          simp only at hnil
          rw [hre.1 hnil] at herr
          simp at herr


/-- A run of createInstance in which saving the instance state fails after
the directory was made: the error is wrapped, the listener is closed and the
directory is removed. -/
theorem createInstance_cleanup_witness :
    createInstance { demoHost with save := fun _ _ => some "disk full" } (demoArgs 4096)
        (World.init []) =
      (some "Unable to save instance state: disk full",
       { dirs := [], resultCh := [], stdout := [],
         trace := [Event.checkMemAvailable { demoVM with MemMiB := 4096 },
                   Event.Stat demoDir, Event.MkdirAll demoDir, Event.prepareSSHKeys,
                   Event.createLocalListener, Event.generateCloudConfig,
                   Event.save { demoWorkload "xenial" false { demoVM with MemMiB := 4096 } with
                                mergedUserData := "#cloud-config" } demoDir,
                   Event.Close 7, Event.RemoveAll demoDir] }) ∧
    (Event.RemoveAll demoDir ∈
        (createInstance { demoHost with save := fun _ _ => some "disk full" } (demoArgs 4096)
          (World.init [])).2.trace ∧
      demoDir ∉ (createInstance { demoHost with save := fun _ _ => some "disk full" }
          (demoArgs 4096) (World.init [])).2.dirs) :=
  ⟨rfl,
   ((createInstance_cleanup { demoHost with save := fun _ _ => some "disk full" } (demoArgs 4096)
      [] demoDir (by decide) rfl).1 (by decide)).1,
   ((createInstance_cleanup { demoHost with save := fun _ _ => some "disk full" } (demoArgs 4096)
      [] demoDir (by decide) rfl).1 (by decide)).2 rfl⟩

/-! ## createInstance: who closes the listener (C2) -/

/-- C2: in every run of createInstance in which createLocalListener was called
and returned the listener `l`: the deferred `l.Close()` runs exactly when
manageInstallation was not called (so never once manageInstallation was
called, whether it failed or not), it runs at most once, and no other listener
is closed or handed to manageInstallation. -/
theorem createInstance_listener (h : Host) (args : CreateArgs) (dirs : List String)
    (l : Listener) (port : Int)
    (hcall : Event.createLocalListener ∈ (createInstance h args (World.init dirs)).2.trace)
    (hopen : h.createLocalListener = .ok (l, port)) :
    (Event.Close l ∈ (createInstance h args (World.init dirs)).2.trace ↔
      ∀ l2 d, Event.manageInstallation l2 d ∉ (createInstance h args (World.init dirs)).2.trace) ∧
    (createInstance h args (World.init dirs)).2.trace.count (Event.Close l) ≤ 1 ∧
    (∀ l2, Event.Close l2 ∈ (createInstance h args (World.init dirs)).2.trace → l2 = l) ∧
    (∀ l2 d, Event.manageInstallation l2 d ∈ (createInstance h args (World.init dirs)).2.trace →
      l2 = l) := by
  rcases prepareCreate_cases h args (World.init dirs) with
    ⟨e, hp⟩ | ⟨vm, e, hp, -⟩ | ⟨wkld, ws, tr, ws0, hp, -, -, -, -⟩
  · rw [createInstance_of_error h args _ _ e hp] at hcall
    simp [World.init] at hcall
  · rw [createInstance_of_error h args _ _ e hp] at hcall
    simp [World.init, World.log_trace] at hcall
  · by_cases hex : ws.instanceDir ∈ ((World.init dirs).log
        (Event.checkMemAvailable wkld.spec.VM)).dirs
    · rw [createInstance_of_exists h args _ _ wkld ws tr hp hex] at hcall
      simp [World.init, World.log_trace] at hcall
    · cases hmk2 : h.MkdirAll ws.instanceDir with
      | some e2 =>
        rw [createInstance_of_mkdir_error h args _ _ wkld ws tr e2 hp hex hmk2] at hcall
        simp [World.init, World.log_trace] at hcall
      | none =>
        have hL := afterMkdir_listener h args wkld ws tr
          ((((World.init dirs).log (Event.checkMemAvailable wkld.spec.VM)).log
            (Event.Stat ws.instanceDir)).log (Event.MkdirAll ws.instanceDir)
            |>.mkdir ws.instanceDir)
          (by simp [World.mkdir_trace, World.log_trace, World.init])
          (by simp [World.mkdir_trace, World.log_trace, World.init])
          (by simp [World.mkdir_trace, World.log_trace, World.init]) l port
        cases herr : (createInstance.afterMkdir h args wkld ws tr
          ((((World.init dirs).log (Event.checkMemAvailable wkld.spec.VM)).log
            (Event.Stat ws.instanceDir)).log (Event.MkdirAll ws.instanceDir)
            |>.mkdir ws.instanceDir)).1.err with
        | none =>
          rw [createInstance_of_success h args _ _ wkld ws tr hp hex hmk2 herr] at hcall ⊢
          exact hL hcall hopen
        | some e2 =>
          rw [createInstance_of_failure h args _ _ wkld ws tr e2 hp hex hmk2 herr] at hcall ⊢
          rw [RemoveAll_trace] at hcall ⊢
          have hcall2 : Event.createLocalListener ∈ (createInstance.afterMkdir h args wkld ws tr
              ((((World.init dirs).log (Event.checkMemAvailable wkld.spec.VM)).log
                (Event.Stat ws.instanceDir)).log (Event.MkdirAll ws.instanceDir)
                |>.mkdir ws.instanceDir)).2.trace := by
            simpa using hcall
          obtain ⟨h1, h2, h3, h4⟩ := hL hcall2 hopen
          refine ⟨?_, ?_, ?_, ?_⟩
          · simpa using h1
          · simpa [List.count_append] using h2
          · intro l2 hl2
            exact h3 l2 (by simpa using hl2)
          · intro l2 d hl2
            exact h4 l2 d (by simpa using hl2)

/-- Two runs of createInstance on the example host: one that succeeds, in
which manageInstallation receives listener 7 and the pipeline does not close
it, and one in which the boot fails, in which the pipeline closes it. -/
theorem createInstance_listener_witness :
    (Event.manageInstallation 7 demoDir ∈
        (createInstance demoHost (demoArgs 4096) (World.init [])).2.trace ∧
      Event.Close 7 ∉ (createInstance demoHost (demoArgs 4096) (World.init [])).2.trace) ∧
    (Event.Close 7 ∈
        (createInstance { demoHost with bootVM := fun _ _ _ => some "qemu failed" }
          (demoArgs 4096) (World.init [])).2.trace ∧
      (∀ l2 d, Event.manageInstallation l2 d ∉
        (createInstance { demoHost with bootVM := fun _ _ _ => some "qemu failed" }
          (demoArgs 4096) (World.init [])).2.trace) ∧
      (createInstance { demoHost with bootVM := fun _ _ _ => some "qemu failed" }
          (demoArgs 4096) (World.init [])).2.trace.count (Event.Close 7) ≤ 1) :=
  ⟨⟨by decide,
    fun hc => ((createInstance_listener demoHost (demoArgs 4096) [] 7 45123 (by decide) rfl).1.1
      hc) 7 demoDir (by decide)⟩,
   ⟨by decide,
    (createInstance_listener { demoHost with bootVM := fun _ _ _ => some "qemu failed" }
      (demoArgs 4096) [] 7 45123 (by decide) rfl).1.1 (by decide),
    (createInstance_listener { demoHost with bootVM := fun _ _ _ => some "qemu failed" }
      (demoArgs 4096) [] 7 45123 (by decide) rfl).2.1⟩⟩


/-! ## createInstance on an existing instance (C5) -/

/-- C5, as stated, fails: with the directory of `dev1` present and a request of
16384 MiB on a host with 8192 MiB available, createInstance returns the memory
error, not "instance already exists": admission control is decided first. -/
theorem createInstance_existing_counterexample :
    createInstance demoHost (demoArgs 16384) (World.init [demoDir]) =
      (some "Host device has only 8192 MiB of RAM available",
       { dirs := [demoDir], resultCh := [], stdout := [],
         trace := [Event.checkMemAvailable { demoVM with MemMiB := 16384 }] }) ∧
    "Host device has only 8192 MiB of RAM available" ≠ "instance already exists" :=
  ⟨rfl, by decide⟩

/-- C5, amended: when the instance directory of the name already exists,
createInstance fails; the error is "instance already exists" when prepareCreate
(the resolution of the workspace and of the workload, and admission control,
which all come first) succeeds, and is the error of prepareCreate otherwise.
In both cases neither os.MkdirAll nor os.RemoveAll is called and the
directories are left as they were. -/
theorem createInstance_existing (h : Host) (args : CreateArgs) (dirs : List String)
    (ws0 : workspace) (hEnv : h.prepareEnv args.Name = .ok ws0)
    (hex : ws0.instanceDir ∈ dirs) :
    (createInstance h args (World.init dirs)).1 ≠ none ∧
    (createInstance h args (World.init dirs)).2.dirs = dirs ∧
    (∀ p, Event.MkdirAll p ∉ (createInstance h args (World.init dirs)).2.trace ∧
          Event.RemoveAll p ∉ (createInstance h args (World.init dirs)).2.trace) ∧
    (∀ r, (prepareCreate h args (World.init dirs)).1 = .ok r →
      (createInstance h args (World.init dirs)).1 = some "instance already exists") ∧
    (∀ e, (prepareCreate h args (World.init dirs)).1 = .error e →
      (createInstance h args (World.init dirs)).1 = some e) := by
  rcases prepareCreate_cases h args (World.init dirs) with
    ⟨e, hp⟩ | ⟨vm, e, hp, -⟩ | ⟨wkld, ws, tr, ws1, hp, hEnv1, hdir, -, -⟩
  · rw [createInstance_of_error h args _ _ e hp, hp]
    simp [World.init]
  · rw [createInstance_of_error h args _ _ e hp, hp]
    simp [World.init, World.log_trace, World.log_dirs]
  · rw [hEnv] at hEnv1
    cases hEnv1
    have hex2 : ws.instanceDir ∈ ((World.init dirs).log
        (Event.checkMemAvailable wkld.spec.VM)).dirs := by
      rw [hdir]
      exact hex
    rw [createInstance_of_exists h args _ _ wkld ws tr hp hex2, hp]
    simp [World.init, World.log_trace, World.log_dirs]

/-- A second createInstance of `dev1` on the example host, with a request that
fits: the error is "instance already exists", and the directory is left. -/
theorem createInstance_existing_witness :
    (createInstance demoHost (demoArgs 4096) (World.init [demoDir])).1 =
      some "instance already exists" ∧
    (createInstance demoHost (demoArgs 4096) (World.init [demoDir])).2.dirs = [demoDir] :=
  ⟨(createInstance_existing demoHost (demoArgs 4096) [demoDir] _ rfl (by decide)).2.2.2.1 _ rfl,
   (createInstance_existing demoHost (demoArgs 4096) [demoDir] _ rfl (by decide)).2.1⟩

/-! ## start: what it does to the world -/

/-- The ways start ends.  Either it fails before the memory check and leaves
the world untouched; or the workspace resolved, the workload was restored and
the overrides merged, and, with `vm` the merged specification in which a zero
MemMiB and a zero CPUs are replaced by the defaults: the memory check is made
on `vm`, and either it fails and nothing else is done, or it passes and the
workload holding `vm` is saved, the VM is booted with `vm`, and start returns
what bootVM returned. -/
theorem start_cases (h : Host) (name : String) (customSpec : VMSpec) (w : World) :
    (∃ e, start h name customSpec w = (some e, w)) ∨
    (∃ ws wkld0 merged, h.prepareEnv name = .ok ws ∧ h.restoreWorkload ws = .ok wkld0 ∧
      h.MergeCustom wkld0.spec.VM customSpec = .ok merged ∧
      ((∃ e, start h name customSpec w =
          (some e, w.log (Event.checkMemAvailable
            { MemMiB := if merged.MemMiB = 0 then h.defaultVMSpec.MemMiB else merged.MemMiB,
              CPUs := if merged.CPUs = 0 then h.defaultVMSpec.CPUs else merged.CPUs,
              DiskGiB := merged.DiskGiB, Mounts := merged.Mounts })) ∧
          (h.GetMemoryInfo.2 = -1 ∨
            (if merged.MemMiB = 0 then h.defaultVMSpec.MemMiB else merged.MemMiB)
              > h.GetMemoryInfo.2)) ∨
       (h.GetMemoryInfo.2 ≠ -1 ∧
        (if merged.MemMiB = 0 then h.defaultVMSpec.MemMiB else merged.MemMiB)
          ≤ h.GetMemoryInfo.2 ∧
        (start h name customSpec w).1 = h.bootVM ws name
            { MemMiB := if merged.MemMiB = 0 then h.defaultVMSpec.MemMiB else merged.MemMiB,
              CPUs := if merged.CPUs = 0 then h.defaultVMSpec.CPUs else merged.CPUs,
              DiskGiB := merged.DiskGiB, Mounts := merged.Mounts } ∧
        (start h name customSpec w).2.dirs = w.dirs ∧
        (start h name customSpec w).2.trace = w.trace ++
          [Event.checkMemAvailable
            { MemMiB := if merged.MemMiB = 0 then h.defaultVMSpec.MemMiB else merged.MemMiB,
              CPUs := if merged.CPUs = 0 then h.defaultVMSpec.CPUs else merged.CPUs,
              DiskGiB := merged.DiskGiB, Mounts := merged.Mounts },
           Event.save
            { wkld0 with spec := { wkld0.spec with VM :=
              { MemMiB := if merged.MemMiB = 0 then h.defaultVMSpec.MemMiB else merged.MemMiB,
                CPUs := if merged.CPUs = 0 then h.defaultVMSpec.CPUs else merged.CPUs,
                DiskGiB := merged.DiskGiB, Mounts := merged.Mounts } } } ws.instanceDir,
           Event.bootVM name
            { MemMiB := if merged.MemMiB = 0 then h.defaultVMSpec.MemMiB else merged.MemMiB,
              CPUs := if merged.CPUs = 0 then h.defaultVMSpec.CPUs else merged.CPUs,
              DiskGiB := merged.DiskGiB, Mounts := merged.Mounts }]))) := by
  unfold start
  cases hEnv : h.prepareEnv name with
  | error e => exact Or.inl ⟨e, rfl⟩
  | ok ws =>
    simp only
    cases hWk : h.restoreWorkload ws with
    | error e => exact Or.inl ⟨e, rfl⟩
    | ok wkld0 =>
      simp only
      cases hM : h.MergeCustom wkld0.spec.VM customSpec with
      | error e => exact Or.inl ⟨e, rfl⟩
      | ok merged =>
        simp only
        have hfill : (if (if merged.MemMiB = 0 then
              { merged with MemMiB := h.defaultVMSpec.MemMiB } else merged).CPUs = 0 then
            { (if merged.MemMiB = 0 then
                { merged with MemMiB := h.defaultVMSpec.MemMiB } else merged) with
              CPUs := h.defaultVMSpec.CPUs }
            else (if merged.MemMiB = 0 then
              { merged with MemMiB := h.defaultVMSpec.MemMiB } else merged)) =
            ({ MemMiB := if merged.MemMiB = 0 then h.defaultVMSpec.MemMiB else merged.MemMiB,
               CPUs := if merged.CPUs = 0 then h.defaultVMSpec.CPUs else merged.CPUs,
               DiskGiB := merged.DiskGiB, Mounts := merged.Mounts } : VMSpec) := by
          by_cases hm : merged.MemMiB = 0 <;> by_cases hc : merged.CPUs = 0 <;>
            simp [hm, hc]
        rw [hfill]
        by_cases hn : (wkld0.spec.NeedsNestedVM && !h.hostSupportsNestedKVM) = true
        · rw [if_pos hn]
          exact Or.inl ⟨_, rfl⟩
        · rw [if_neg hn]
          refine Or.inr ⟨ws, wkld0, merged, rfl, hWk, hM, ?_⟩
          unfold checkMemAvailable
          by_cases h1 : h.GetMemoryInfo.2 = -1
          · rw [if_pos h1]
            exact Or.inl ⟨_, rfl, Or.inl h1⟩
          · by_cases h2 : (if merged.MemMiB = 0 then h.defaultVMSpec.MemMiB else merged.MemMiB)
                > h.GetMemoryInfo.2
            · rw [if_neg h1, if_pos h2]
              exact Or.inl ⟨_, rfl, Or.inr h2⟩
            · rw [if_neg h1, if_neg h2]
              refine Or.inr ⟨h1, not_lt.mp h2, ?_⟩
              simp only
              cases h.save _ ws.instanceDir <;> cases h.bootVM ws name _ <;>
                simp [World.log, World.print]


/-! ## Admission: memory (C3) -/

/-- In createInstance a memory check that fails, or a memory query that is
not available, ends the run with an error before any directory is made; and a
directory is made only after the memory check passed on the merged
specification of the request. -/
theorem createInstance_admission (h : Host) (args : CreateArgs) (dirs : List String) :
    ((h.GetMemoryInfo.2 = -1 ∨
        ∃ vm, Event.checkMemAvailable vm ∈ (createInstance h args (World.init dirs)).2.trace ∧
          vm.MemMiB > h.GetMemoryInfo.2) →
      (createInstance h args (World.init dirs)).1 ≠ none ∧
      ∀ p, Event.MkdirAll p ∉ (createInstance h args (World.init dirs)).2.trace) ∧
    (∀ p, Event.MkdirAll p ∈ (createInstance h args (World.init dirs)).2.trace →
      ∃ ws0 wkld0 vm,
        h.prepareEnv args.Name = .ok ws0 ∧
        h.createWorkload
          { ws0 with HTTPProxy := args.HTTPProxy, HTTPSProxy := args.HTTPSProxy,
                     NoProxy := args.NoProxy, GoPath := args.GoPath }
          args.WorkloadName
          (h.getHTTPTransport args.HTTPProxy args.HTTPSProxy args.NoProxy) = .ok wkld0 ∧
        h.MergeCustom wkld0.spec.VM args.CustomSpec = .ok vm ∧
        Event.checkMemAvailable vm ∈ (createInstance h args (World.init dirs)).2.trace ∧
        h.GetMemoryInfo.2 ≠ -1 ∧ vm.MemMiB ≤ h.GetMemoryInfo.2) := by
  rcases prepareCreate_cases h args (World.init dirs) with
    ⟨e, hp⟩ | ⟨vm, e, hp, -⟩ | ⟨wkld, ws, tr, ws0, hp, -, -, hq, hle⟩
  · rw [createInstance_of_error h args _ _ e hp]
    simp [World.init]
  · rw [createInstance_of_error h args _ _ e hp]
    simp [World.init, World.log_trace]
  · obtain ⟨ws1, wkld1, hEnv1, hWk1, hM1⟩ := prepareCreate_merged h args _ _ wkld ws tr hp
    have hbad : ∀ (t : List Event),
        (∀ vm, Event.checkMemAvailable vm ∈ t → vm = wkld.spec.VM) →
        ¬ (h.GetMemoryInfo.2 = -1 ∨
          ∃ vm, Event.checkMemAvailable vm ∈ t ∧ vm.MemMiB > h.GetMemoryInfo.2) := by
      intro t ht
      rintro (h1 | ⟨vm, hvm, hgt⟩)
      · exact hq h1
      · rw [ht vm hvm] at hgt
        exact absurd hle (not_le.mpr hgt)
    by_cases hex : ws.instanceDir ∈ ((World.init dirs).log
        (Event.checkMemAvailable wkld.spec.VM)).dirs
    · rw [createInstance_of_exists h args _ _ wkld ws tr hp hex]
      simp [World.init, World.log_trace]
    · cases hmk2 : h.MkdirAll ws.instanceDir with
      | some e2 =>
        rw [createInstance_of_mkdir_error h args _ _ wkld ws tr e2 hp hex hmk2]
        refine ⟨fun hyp => absurd hyp (hbad _ ?_), ?_⟩
        · intro vm hvm
          simpa [World.init, World.log_trace] using hvm
        · intro p _
          exact ⟨ws1, wkld1, wkld.spec.VM, hEnv1, hWk1, hM1,
            by simp [World.init, World.log_trace], hq, hle⟩
      | none =>
        obtain ⟨-, -, -, -, -, hcm⟩ := afterMkdir_quiet h args wkld ws tr
          ((((World.init dirs).log (Event.checkMemAvailable wkld.spec.VM)).log
            (Event.Stat ws.instanceDir)).log (Event.MkdirAll ws.instanceDir)
            |>.mkdir ws.instanceDir)
        have hcm2 : ∀ vm, Event.checkMemAvailable vm ∈ (createInstance.afterMkdir h args wkld ws
            tr ((((World.init dirs).log (Event.checkMemAvailable wkld.spec.VM)).log
            (Event.Stat ws.instanceDir)).log (Event.MkdirAll ws.instanceDir)
            |>.mkdir ws.instanceDir)).2.trace ↔ vm = wkld.spec.VM := by
          intro vm
          rw [hcm]
          simp [World.mkdir_trace, World.log_trace, World.init]
        cases herr : (createInstance.afterMkdir h args wkld ws tr
          ((((World.init dirs).log (Event.checkMemAvailable wkld.spec.VM)).log
            (Event.Stat ws.instanceDir)).log (Event.MkdirAll ws.instanceDir)
            |>.mkdir ws.instanceDir)).1.err with
        | none =>
          rw [createInstance_of_success h args _ _ wkld ws tr hp hex hmk2 herr]
          refine ⟨fun hyp => absurd hyp (hbad _ ?_), ?_⟩
          · intro vm hvm
            exact (hcm2 vm).1 hvm
          · intro p _
            exact ⟨ws1, wkld1, wkld.spec.VM, hEnv1, hWk1, hM1, (hcm2 _).2 rfl, hq, hle⟩
        | some e2 =>
          rw [createInstance_of_failure h args _ _ wkld ws tr e2 hp hex hmk2 herr]
          refine ⟨fun hyp => absurd hyp (hbad _ ?_), ?_⟩
          · intro vm hvm
            rw [RemoveAll_trace] at hvm
            exact (hcm2 vm).1 (by simpa using hvm)
          · intro p _
            refine ⟨ws1, wkld1, wkld.spec.VM, hEnv1, hWk1, hM1, ?_, hq, hle⟩
            rw [RemoveAll_trace]
            simp [(hcm2 wkld.spec.VM).2 rfl]

/-- In createInstance a request whose merged specification asks for more
memory than is available, or any request when the memory query is not
available, ends with an error before any directory is made. -/
theorem createInstance_rejects (h : Host) (args : CreateArgs) (dirs : List String)
    (ws0 : workspace) (wkld0 : workload) (vm : VMSpec)
    (hEnv : h.prepareEnv args.Name = .ok ws0)
    (hWk : h.createWorkload
        { ws0 with HTTPProxy := args.HTTPProxy, HTTPSProxy := args.HTTPSProxy,
                   NoProxy := args.NoProxy, GoPath := args.GoPath }
        args.WorkloadName
        (h.getHTTPTransport args.HTTPProxy args.HTTPSProxy args.NoProxy) = .ok wkld0)
    (hM : h.MergeCustom wkld0.spec.VM args.CustomSpec = .ok vm)
    (hmem : h.GetMemoryInfo.2 = -1 ∨ vm.MemMiB > h.GetMemoryInfo.2) :
    (createInstance h args (World.init dirs)).1 ≠ none ∧
    ∀ p, Event.MkdirAll p ∉ (createInstance h args (World.init dirs)).2.trace := by
  obtain ⟨e, hp | hp⟩ := prepareCreate_rejects h args (World.init dirs) ws0 wkld0 vm
    hEnv hWk hM hmem
  · rw [createInstance_of_error h args _ _ e hp]
    simp [World.init]
  · rw [createInstance_of_error h args _ _ e hp]
    simp [World.init, World.log_trace]

/-- In start a memory check that fails, or a memory query that is not
available, ends the run with an error before bootVM is called; and bootVM is
called only after the memory check passed on the specification it boots, which
is the merged specification with the defaults filled in. -/
theorem start_admission (h : Host) (name : String) (customSpec : VMSpec) (dirs : List String) :
    ((h.GetMemoryInfo.2 = -1 ∨
        ∃ vm, Event.checkMemAvailable vm ∈ (start h name customSpec (World.init dirs)).2.trace ∧
          vm.MemMiB > h.GetMemoryInfo.2) →
      (start h name customSpec (World.init dirs)).1 ≠ none ∧
      ∀ n s, Event.bootVM n s ∉ (start h name customSpec (World.init dirs)).2.trace) ∧
    (∀ n s, Event.bootVM n s ∈ (start h name customSpec (World.init dirs)).2.trace →
      ∃ ws wkld0 merged,
        h.prepareEnv name = .ok ws ∧ h.restoreWorkload ws = .ok wkld0 ∧
        h.MergeCustom wkld0.spec.VM customSpec = .ok merged ∧
        s = { MemMiB := if merged.MemMiB = 0 then h.defaultVMSpec.MemMiB else merged.MemMiB,
              CPUs := if merged.CPUs = 0 then h.defaultVMSpec.CPUs else merged.CPUs,
              DiskGiB := merged.DiskGiB, Mounts := merged.Mounts } ∧
        Event.checkMemAvailable s ∈ (start h name customSpec (World.init dirs)).2.trace ∧
        h.GetMemoryInfo.2 ≠ -1 ∧ s.MemMiB ≤ h.GetMemoryInfo.2) := by
  rcases start_cases h name customSpec (World.init dirs) with
    ⟨e, hs⟩ | ⟨ws, wkld0, merged, hEnv, hWk, hM, ⟨e, hs, -⟩ | ⟨hq, hle, -, -, ht⟩⟩
  · rw [hs]
    simp [World.init]
  · rw [hs]
    simp [World.init, World.log_trace]
  · rw [ht]
    constructor
    · rintro (h1 | ⟨vm, hvm, hgt⟩)
      · exact absurd h1 hq
      · simp [World.init] at hvm
        rw [hvm] at hgt
        exact absurd hle (not_le.mpr hgt)
    · intro n s hs
      simp [World.init] at hs
      obtain ⟨-, rfl⟩ := hs
      exact ⟨ws, wkld0, merged, hEnv, hWk, hM, rfl, by simp [World.init], hq, hle⟩

/-- In start a request whose merged specification, with the defaults filled
in, asks for more memory than is available, or any request when the memory
query is not available, ends with an error before bootVM is called. -/
theorem start_rejects (h : Host) (name : String) (customSpec : VMSpec) (dirs : List String)
    (ws : workspace) (wkld0 : workload) (merged : VMSpec)
    (hEnv : h.prepareEnv name = .ok ws) (hWk : h.restoreWorkload ws = .ok wkld0)
    (hM : h.MergeCustom wkld0.spec.VM customSpec = .ok merged)
    (hmem : h.GetMemoryInfo.2 = -1 ∨
      (if merged.MemMiB = 0 then h.defaultVMSpec.MemMiB else merged.MemMiB)
        > h.GetMemoryInfo.2) :
    (start h name customSpec (World.init dirs)).1 ≠ none ∧
    ∀ n s, Event.bootVM n s ∉ (start h name customSpec (World.init dirs)).2.trace := by
  rcases start_cases h name customSpec (World.init dirs) with
    ⟨e, hs⟩ | ⟨ws2, wkld2, merged2, hEnv2, hWk2, hM2, ⟨e, hs, -⟩ | ⟨hq, hle, -, -, -⟩⟩
  · rw [hs]
    simp [World.init]
  · rw [hs]
    simp [World.init, World.log_trace]
  · rw [hEnv] at hEnv2
    cases hEnv2
    rw [hWk] at hWk2
    cases hWk2
    rw [hM] at hM2
    cases hM2
    rcases hmem with h1 | h2
    · exact absurd h1 hq
    · exact absurd hle (not_le.mpr h2)

/-- C3: for every request whose merged VM specification (in start, with the
defaults filled in) asks for more MemMiB than the host reports available, and
for every request when the memory query reports -1, createInstance returns an
error without calling os.MkdirAll and start returns an error without calling
bootVM.  Conversely os.MkdirAll is called, and the VM booted, only after the
memory check passed on that specification.  A specification whose MemMiB
equals the available memory passes the memory check. -/
theorem memory_admission (h : Host) :
    (∀ args dirs,
      (∀ ws0 wkld0 vm,
        h.prepareEnv args.Name = .ok ws0 →
        h.createWorkload
          { ws0 with HTTPProxy := args.HTTPProxy, HTTPSProxy := args.HTTPSProxy,
                     NoProxy := args.NoProxy, GoPath := args.GoPath }
          args.WorkloadName
          (h.getHTTPTransport args.HTTPProxy args.HTTPSProxy args.NoProxy) = .ok wkld0 →
        h.MergeCustom wkld0.spec.VM args.CustomSpec = .ok vm →
        vm.MemMiB > h.GetMemoryInfo.2 →
        (createInstance h args (World.init dirs)).1 ≠ none ∧
        ∀ p, Event.MkdirAll p ∉ (createInstance h args (World.init dirs)).2.trace) ∧
      ((h.GetMemoryInfo.2 = -1 ∨
          ∃ vm, Event.checkMemAvailable vm ∈ (createInstance h args (World.init dirs)).2.trace ∧
            vm.MemMiB > h.GetMemoryInfo.2) →
        (createInstance h args (World.init dirs)).1 ≠ none ∧
        ∀ p, Event.MkdirAll p ∉ (createInstance h args (World.init dirs)).2.trace) ∧
      (∀ p, Event.MkdirAll p ∈ (createInstance h args (World.init dirs)).2.trace →
        ∃ ws0 wkld0 vm,
          h.prepareEnv args.Name = .ok ws0 ∧
          h.createWorkload
            { ws0 with HTTPProxy := args.HTTPProxy, HTTPSProxy := args.HTTPSProxy,
                       NoProxy := args.NoProxy, GoPath := args.GoPath }
            args.WorkloadName
            (h.getHTTPTransport args.HTTPProxy args.HTTPSProxy args.NoProxy) = .ok wkld0 ∧
          h.MergeCustom wkld0.spec.VM args.CustomSpec = .ok vm ∧
          Event.checkMemAvailable vm ∈ (createInstance h args (World.init dirs)).2.trace ∧
          h.GetMemoryInfo.2 ≠ -1 ∧ vm.MemMiB ≤ h.GetMemoryInfo.2)) ∧
    (∀ name customSpec dirs,
      (∀ ws wkld0 merged,
        h.prepareEnv name = .ok ws → h.restoreWorkload ws = .ok wkld0 →
        h.MergeCustom wkld0.spec.VM customSpec = .ok merged →
        (if merged.MemMiB = 0 then h.defaultVMSpec.MemMiB else merged.MemMiB)
          > h.GetMemoryInfo.2 →
        (start h name customSpec (World.init dirs)).1 ≠ none ∧
        ∀ n s, Event.bootVM n s ∉ (start h name customSpec (World.init dirs)).2.trace) ∧
      ((h.GetMemoryInfo.2 = -1 ∨
          ∃ vm, Event.checkMemAvailable vm ∈
              (start h name customSpec (World.init dirs)).2.trace ∧
            vm.MemMiB > h.GetMemoryInfo.2) →
        (start h name customSpec (World.init dirs)).1 ≠ none ∧
        ∀ n s, Event.bootVM n s ∉ (start h name customSpec (World.init dirs)).2.trace) ∧
      (∀ n s, Event.bootVM n s ∈ (start h name customSpec (World.init dirs)).2.trace →
        ∃ ws wkld0 merged,
          h.prepareEnv name = .ok ws ∧ h.restoreWorkload ws = .ok wkld0 ∧
          h.MergeCustom wkld0.spec.VM customSpec = .ok merged ∧
          s = { MemMiB := if merged.MemMiB = 0 then h.defaultVMSpec.MemMiB
                          else merged.MemMiB,
                CPUs := if merged.CPUs = 0 then h.defaultVMSpec.CPUs else merged.CPUs,
                DiskGiB := merged.DiskGiB, Mounts := merged.Mounts } ∧
          Event.checkMemAvailable s ∈ (start h name customSpec (World.init dirs)).2.trace ∧
          h.GetMemoryInfo.2 ≠ -1 ∧ s.MemMiB ≤ h.GetMemoryInfo.2)) ∧
    (∀ vm w, h.GetMemoryInfo.2 ≠ -1 → vm.MemMiB = h.GetMemoryInfo.2 →
      (checkMemAvailable h vm w).1 = none) := by
  refine ⟨fun args dirs => ⟨?_, (createInstance_admission h args dirs).1,
      (createInstance_admission h args dirs).2⟩,
    fun name customSpec dirs => ⟨?_, (start_admission h name customSpec dirs).1,
      (start_admission h name customSpec dirs).2⟩, ?_⟩
  · intro ws0 wkld0 vm hEnv hWk hM hgt
    exact createInstance_rejects h args dirs ws0 wkld0 vm hEnv hWk hM (Or.inr hgt)
  · intro ws wkld0 merged hEnv hWk hM hgt
    exact start_rejects h name customSpec dirs ws wkld0 merged hEnv hWk hM (Or.inr hgt)
  · intro vm w h1 h2
    simp [checkMemAvailable, h1, h2]

/-- Scenario B of the specification: a request of 16384 MiB on a host with
8192 MiB available makes createInstance, and start, fail at once; and a
request of exactly 8192 MiB passes the memory check. -/
theorem memory_admission_witness :
    ((createInstance demoHost (demoArgs 16384) (World.init [])).1 ≠ none ∧
      ∀ p, Event.MkdirAll p ∉ (createInstance demoHost (demoArgs 16384) (World.init [])).2.trace) ∧
    ((start demoHost "dev1" { demoVM with MemMiB := 16384 } (World.init [demoDir])).1 ≠ none ∧
      ∀ n s, Event.bootVM n s ∉
        (start demoHost "dev1" { demoVM with MemMiB := 16384 } (World.init [demoDir])).2.trace) ∧
    (checkMemAvailable demoHost { demoVM with MemMiB := 8192 } (World.init [])).1 = none :=
  ⟨((memory_admission demoHost).1 (demoArgs 16384) []).1 _ _ { demoVM with MemMiB := 16384 }
      rfl rfl rfl (by decide),
   ((memory_admission demoHost).2.1 "dev1" { demoVM with MemMiB := 16384 } [demoDir]).1 _ _
      { demoVM with MemMiB := 16384 } rfl rfl rfl (by decide),
   (memory_admission demoHost).2.2 { demoVM with MemMiB := 8192 } (World.init [])
      (by decide) rfl⟩


/-! ## Admission: the order of the checks (C4) -/

/-- C4, as stated, fails: on a host without nested KVM and without memory
statistics, with a workload that needs nested KVM, createInstance and start
both return the nested KVM error, not a memory error, and the memory is not
even queried. -/
theorem admission_order_counterexample :
    createInstance nestedHost (demoArgs 16384) (World.init []) =
      (some "nested KVM is not enabled.  Please enable and try again", World.init []) ∧
    start nestedHost "dev1" { demoVM with MemMiB := 16384 } (World.init [demoDir]) =
      (some "nested KVM is not enabled.  Please enable and try again", World.init [demoDir]) ∧
    nestedHost.GetMemoryInfo.2 = -1 ∧
    (checkMemAvailable nestedHost { demoVM with MemMiB := 16384 } (World.init [])).1 =
      some "Unable to compute memory statistics of host device" :=
  ⟨rfl, rfl, rfl, rfl⟩

/-- C4, amended: the checks run in the order nested virtualization, memory
statistics obtainable, requested memory within the available memory.  When
the workload needs nested virtualization and the host does not support it,
createInstance (through prepareCreate) and start, once the workload is resolved
and the overrides merged, return the nested KVM error whatever the memory
query reports, without making the memory check; and when the memory query is
not available checkMemAvailable returns the query error whatever the request
is, and otherwise the limit error exactly when the request exceeds the
available memory. -/
theorem admission_order (h : Host) (hHost : h.hostSupportsNestedKVM = false) :
    (∀ args w ws0 wkld0 vm,
      h.prepareEnv args.Name = .ok ws0 →
      h.createWorkload
        { ws0 with HTTPProxy := args.HTTPProxy, HTTPSProxy := args.HTTPSProxy,
                   NoProxy := args.NoProxy, GoPath := args.GoPath }
        args.WorkloadName
        (h.getHTTPTransport args.HTTPProxy args.HTTPSProxy args.NoProxy) = .ok wkld0 →
      h.MergeCustom wkld0.spec.VM args.CustomSpec = .ok vm →
      wkld0.spec.NeedsNestedVM = true →
      createInstance h args w =
        (some "nested KVM is not enabled.  Please enable and try again", w)) ∧
    (∀ name customSpec w ws wkld0 vm,
      h.prepareEnv name = .ok ws →
      h.restoreWorkload ws = .ok wkld0 →
      h.MergeCustom wkld0.spec.VM customSpec = .ok vm →
      wkld0.spec.NeedsNestedVM = true →
      start h name customSpec w =
        (some "nested KVM is not enabled.  Please enable and try again", w)) ∧
    (∀ vm w, h.GetMemoryInfo.2 = -1 →
      (checkMemAvailable h vm w).1 =
        some "Unable to compute memory statistics of host device") ∧
    (∀ vm w, h.GetMemoryInfo.2 ≠ -1 →
      ((checkMemAvailable h vm w).1 ≠ none ↔ vm.MemMiB > h.GetMemoryInfo.2)) := by
  refine ⟨?_, ?_, ?_, ?_⟩
  · intro args w ws0 wkld0 vm hEnv hWk hM hN
    have hp : prepareCreate h args w = (.error nestedKVMError, w) := by
      unfold prepareCreate
      simp only [hEnv, hWk, hM, hN, hHost]
      simp
    rw [createInstance_of_error h args w w _ hp, nestedKVMError_eq]
  · intro name customSpec w ws wkld0 vm hEnv hWk hM hN
    unfold start
    simp only [hEnv, hWk, hM, hN, hHost]
    simp [nestedKVMError_eq]
  · intro vm w h1
    simp [checkMemAvailable, h1, memQueryError_eq]
  · intro vm w h1
    unfold checkMemAvailable
    by_cases h2 : vm.MemMiB > h.GetMemoryInfo.2
    · simp [h1, h2]
    · simp [h1, h2]

/-- The amended C4 on the host without nested KVM and without memory
statistics. -/
theorem admission_order_witness :
    (createInstance nestedHost (demoArgs 16384) (World.init [])).1 =
      some "nested KVM is not enabled.  Please enable and try again" ∧
    (start nestedHost "dev1" { demoVM with MemMiB := 16384 } (World.init [demoDir])).1 =
      some "nested KVM is not enabled.  Please enable and try again" :=
  ⟨congrArg Prod.fst ((admission_order nestedHost rfl).1 (demoArgs 16384) (World.init [])
      _ _ _ rfl rfl rfl rfl),
   congrArg Prod.fst ((admission_order nestedHost rfl).2.1 "dev1" { demoVM with MemMiB := 16384 }
      (World.init [demoDir]) _ _ _ rfl rfl rfl rfl)⟩

/-! ## start: the defaults (C7) -/

/-- C7: with defaults whose MemMiB and CPUs are not zero, every VM
specification that start checks for memory, saves or boots has a non-zero
MemMiB and a non-zero CPUs; and, when the workspace resolves, the workload is
restored and the overrides merge into `merged`, each of those specifications
is `merged` with a zero MemMiB replaced by the default MemMiB, a zero CPUs
replaced by the default CPUs, and every non-zero field unchanged. -/
theorem start_defaults (h : Host) (name : String) (customSpec : VMSpec) (dirs : List String)
    (hMem : h.defaultVMSpec.MemMiB ≠ 0) (hCPU : h.defaultVMSpec.CPUs ≠ 0) :
    (∀ vm, (Event.checkMemAvailable vm ∈ (start h name customSpec (World.init dirs)).2.trace ∨
            (∃ wkld d, Event.save wkld d ∈ (start h name customSpec (World.init dirs)).2.trace ∧
              wkld.spec.VM = vm) ∨
            (∃ n, Event.bootVM n vm ∈ (start h name customSpec (World.init dirs)).2.trace)) →
      vm.MemMiB ≠ 0 ∧ vm.CPUs ≠ 0 ∧
      ∀ ws wkld0 merged, h.prepareEnv name = .ok ws → h.restoreWorkload ws = .ok wkld0 →
        h.MergeCustom wkld0.spec.VM customSpec = .ok merged →
        vm = { MemMiB := if merged.MemMiB = 0 then h.defaultVMSpec.MemMiB else merged.MemMiB,
               CPUs := if merged.CPUs = 0 then h.defaultVMSpec.CPUs else merged.CPUs,
               DiskGiB := merged.DiskGiB, Mounts := merged.Mounts }) := by
  have hfill : ∀ merged : VMSpec,
      (if merged.MemMiB = 0 then h.defaultVMSpec.MemMiB else merged.MemMiB) ≠ 0 ∧
      (if merged.CPUs = 0 then h.defaultVMSpec.CPUs else merged.CPUs) ≠ 0 := by
    intro merged
    constructor
    · split_ifs with hz
      · exact hMem
      · exact hz
    · split_ifs with hz
      · exact hCPU
      · exact hz
  intro vm hvm
  rcases start_cases h name customSpec (World.init dirs) with
    ⟨e, hs⟩ | ⟨ws, wkld0, merged, hEnv, hWk, hM, ⟨e, hs, -⟩ | ⟨-, -, -, -, ht⟩⟩
  · rw [hs] at hvm
    simp [World.init] at hvm
  · rw [hs] at hvm
    simp only [World.init, World.log_trace, List.nil_append, List.mem_singleton,
      Event.checkMemAvailable.injEq, reduceCtorEq, false_and, exists_false, exists_const,
      or_false] at hvm
    subst hvm
    refine ⟨(hfill merged).1, (hfill merged).2, ?_⟩
    intro ws2 wkld2 merged2 hEnv2 hWk2 hM2
    rw [hEnv] at hEnv2
    cases hEnv2
    rw [hWk] at hWk2
    cases hWk2
    rw [hM] at hM2
    cases hM2
    rfl
  · rw [ht] at hvm
    have hvm2 : vm = { MemMiB := if merged.MemMiB = 0 then h.defaultVMSpec.MemMiB
                                  else merged.MemMiB,
                       CPUs := if merged.CPUs = 0 then h.defaultVMSpec.CPUs else merged.CPUs,
                       DiskGiB := merged.DiskGiB, Mounts := merged.Mounts } := by
      rcases hvm with hvm | ⟨wk, d, hvm, rfl⟩ | ⟨n, hvm⟩
      · simpa [World.init] using hvm
      · simp only [World.init, List.nil_append, List.mem_cons, reduceCtorEq,
          Event.save.injEq, List.mem_singleton, false_or, or_false, List.mem_nil_iff] at hvm
        rw [hvm.1]
      · simp only [World.init, List.nil_append, List.mem_cons, reduceCtorEq,
          Event.bootVM.injEq, List.mem_singleton, false_or, or_false, List.mem_nil_iff] at hvm
        exact hvm.2
    subst hvm2
    refine ⟨(hfill merged).1, (hfill merged).2, ?_⟩
    intro ws2 wkld2 merged2 hEnv2 hWk2 hM2
    rw [hEnv] at hEnv2
    cases hEnv2
    rw [hWk] at hWk2
    cases hWk2
    rw [hM] at hM2
    cases hM2
    rfl

/-- A start of `dev1` whose restored workload has no memory and no CPU count
and whose overrides are all zero: the VM is booted with the defaults. -/
theorem start_defaults_witness :
    Event.bootVM "dev1" demoVM ∈
        (start { demoHost with
                 restoreWorkload := fun _ => .ok (demoWorkload "xenial" false
                   { MemMiB := 0, CPUs := 0, DiskGiB := 60, Mounts := [] }) }
          "dev1" { MemMiB := 0, CPUs := 0, DiskGiB := 0, Mounts := [] }
          (World.init [demoDir])).2.trace ∧
    demoVM.MemMiB ≠ 0 ∧ demoVM.CPUs ≠ 0 :=
  ⟨by decide,
   ((start_defaults { demoHost with
                 restoreWorkload := fun _ => .ok (demoWorkload "xenial" false
                   { MemMiB := 0, CPUs := 0, DiskGiB := 60, Mounts := [] }) }
      "dev1" { MemMiB := 0, CPUs := 0, DiskGiB := 0, Mounts := [] } [demoDir]
      (by decide) (by decide)) demoVM (Or.inr (Or.inr ⟨"dev1", by decide⟩))).1,
   ((start_defaults { demoHost with
                 restoreWorkload := fun _ => .ok (demoWorkload "xenial" false
                   { MemMiB := 0, CPUs := 0, DiskGiB := 60, Mounts := [] }) }
      "dev1" { MemMiB := 0, CPUs := 0, DiskGiB := 0, Mounts := [] } [demoDir]
      (by decide) (by decide)) demoVM (Or.inr (Or.inr ⟨"dev1", by decide⟩))).2.1⟩


end Ccvm
